import Mathlib

set_option allowUnsafeReducibility true
attribute [local semireducible] Rat.mul Rat.add Rat.sub Rat.inv Rat.ofScientific

/-!
Verification development for the x-radar scouting CLI
(`skill/scripts/x_search.py`).

The Python source is shallowly embedded: JSON values become the inductive
`JVal`, Python exceptions become `Except PyExc`, machine-independent
integers stay `Int`/`Nat`, and Python floats that the program feeds into
exact comparisons are modelled as exact rationals.  Each definition below
names the source function it embeds.
-/

/-- A JSON value as produced by `json.loads` (and as manipulated by the
Python code).  Numbers are modelled as exact rationals. -/
inductive JVal where
  | null
  | jbool (b : Bool)
  | jnum (q : ℚ)
  | jstr (s : String)
  | jarr (xs : List JVal)
  | jobj (fields : List (String × JVal))

mutual

/-- Structural boolean equality on JSON values. -/
def JVal.beq : JVal → JVal → Bool
  | .null, .null => true
  | .jbool a, .jbool b => a == b
  | .jnum a, .jnum b => a == b
  | .jstr a, .jstr b => a == b
  | .jarr xs, .jarr ys => JVal.beqList xs ys
  | .jobj fs, .jobj gs => JVal.beqFields fs gs
  | _, _ => false

/-- Elementwise `JVal.beq` on arrays. -/
def JVal.beqList : List JVal → List JVal → Bool
  | [], [] => true
  | x :: xs, y :: ys => JVal.beq x y && JVal.beqList xs ys
  | _, _ => false

/-- Elementwise `JVal.beq` on object field lists. -/
def JVal.beqFields : List (String × JVal) → List (String × JVal) → Bool
  | [], [] => true
  | (k1, v1) :: xs, (k2, v2) :: ys => k1 == k2 && JVal.beq v1 v2 && JVal.beqFields xs ys
  | _, _ => false

end

mutual

/-- `JVal.beq` decides equality. -/
def JVal.beq_iff : (a b : JVal) → (JVal.beq a b = true ↔ a = b)
  | .null, b => by cases b <;> simp [JVal.beq]
  | .jbool a, b => by cases b <;> simp [JVal.beq]
  | .jnum a, b => by cases b <;> simp [JVal.beq]
  | .jstr a, b => by cases b <;> simp [JVal.beq]
  | .jarr xs, b => by
      cases b <;> simp [JVal.beq]
      exact JVal.beqList_iff xs _
  | .jobj fs, b => by
      cases b <;> simp [JVal.beq]
      exact JVal.beqFields_iff fs _

/-- `JVal.beqList` decides equality. -/
def JVal.beqList_iff : (xs ys : List JVal) → (JVal.beqList xs ys = true ↔ xs = ys)
  | [], ys => by cases ys <;> simp [JVal.beqList]
  | x :: xs, ys => by
      cases ys with
      | nil => simp [JVal.beqList]
      | cons y ys =>
        simp [JVal.beqList, JVal.beq_iff x y, JVal.beqList_iff xs ys]

/-- `JVal.beqFields` decides equality. -/
def JVal.beqFields_iff : (xs ys : List (String × JVal)) → (JVal.beqFields xs ys = true ↔ xs = ys)
  | [], ys => by cases ys <;> simp [JVal.beqFields]
  | (k1, v1) :: xs, ys => by
      cases ys with
      | nil => simp [JVal.beqFields]
      | cons y ys =>
        obtain ⟨k2, v2⟩ := y
        simp [JVal.beqFields, JVal.beq_iff v1 v2, JVal.beqFields_iff xs ys, and_assoc]

end

instance : DecidableEq JVal := fun a b => decidable_of_iff _ (JVal.beq_iff a b)

/-- Python truthiness (`bool(x)`) of a JSON value: `None`, `False`, `0`,
`""`, `[]`, and `{}` are falsy, everything else truthy. -/
def pyTruthy : JVal → Bool
  | .null => false
  | .jbool b => b
  | .jnum q => decide (q ≠ 0)
  | .jstr s => decide (s ≠ "")
  | .jarr xs => !xs.isEmpty
  | .jobj fs => !fs.isEmpty

/-- Python `a or b` on JSON values. -/
def pyOr (a b : JVal) : JVal := if pyTruthy a then a else b

/-- The Python exceptions the program can observe. -/
inductive PyExc where
  | attributeError (msg : String)
  | typeError (msg : String)
  | valueError (msg : String)
  | overflowError (msg : String)
  deriving DecidableEq

/-- `d.get(key)` — returns `.ok none` when the key is absent, and raises
`AttributeError` when the receiver is not a dict. -/
def dictGet : JVal → String → Except PyExc (Option JVal)
  | .jobj fs, k => .ok (fs.lookup k)
  | _, _ => .error (.attributeError ("object has no attribute get"))

/-- `d.get(key, default)` with an explicit default. -/
def dictGetD (v : JVal) (k : String) (dflt : JVal) : Except PyExc JVal :=
  match dictGet v k with
  | .error e => .error e
  | .ok r => .ok (r.getD dflt)

/-- Python whitespace for `str.strip()` (ASCII subset; the program only
strips user-typed flag values). -/
def isPyWs (c : Char) : Bool :=
  decide (c.toNat = 32 ∨ c.toNat = 9 ∨ c.toNat = 10 ∨ c.toNat = 13 ∨ c.toNat = 11 ∨
    c.toNat = 12)

/-- `s.strip()` (computes through plain character lists so that every
theorem about it evaluates in the kernel). -/
def pyStrip (s : String) : String :=
  String.mk (((s.toList.dropWhile isPyWs).reverse.dropWhile isPyWs).reverse)

/-- `s.lower()` — ASCII lowering (the qualifiers and flag values the
program lowercases are ASCII). -/
def pyLower (s : String) : String := String.mk (s.toList.map Char.toLower)

/-- `s.endswith(suffix)`. -/
def strEndsWith (s suffix : String) : Bool :=
  (suffix.toList).isPrefixOf (s.toList.reverse.take suffix.toList.length).reverse &&
    decide (suffix.toList.length ≤ s.toList.length)

/-- `s[:-n]` for `n ≤ len(s)`. -/
def pyDropRight (s : String) (n : Nat) : String :=
  String.mk (s.toList.take (s.toList.length - n))

/-- `sep.join(xs)` / `urllib`'s `&`-joining. -/
def strIntercalate (sep : String) : List String → String
  | [] => ""
  | [x] => x
  | x :: xs => x ++ sep ++ strIntercalate sep xs

/-- One character of `int(str)` digit parsing: ASCII digit value. -/
def digitVal? (c : Char) : Option Nat :=
  if c.toNat ≥ 48 ∧ c.toNat ≤ 57 then some (c.toNat - 48) else none

/-- Digits with optional single underscores between digits, as Python
accepts in numeric literals passed to `int()` / `float()`.  Returns the
value and whether the digit string was well formed (nonempty, underscores
only between digits). -/
def parseDigitsU : List Char → Option Nat
  | [] => none
  | c :: cs =>
    match digitVal? c with
    | none => none
    | some d => go d cs
where
  /-- continue after at least one digit; an underscore must be followed by
  a digit. -/
  go (acc : Nat) : List Char → Option Nat
    | [] => some acc
    | c :: cs =>
      match digitVal? c with
      | some d => go (acc * 10 + d) cs
      | none =>
        if c = Char.ofNat 95 then
          match cs with
          | [] => none
          | c2 :: cs2 =>
            match digitVal? c2 with
            | some d2 => go (acc * 10 + d2) cs2
            | none => none
        else none

/-- Python `int(s)` on a string: surrounding whitespace stripped, optional
sign, then digits (with underscores allowed between digits). -/
def pyIntOfString? (s : String) : Option Int :=
  let cs := (pyStrip s).toList
  match cs with
  | [] => none
  | c :: rest =>
    if c = Char.ofNat 43 then (parseDigitsU rest).map (fun n => (n : Int))
    else if c = Char.ofNat 45 then (parseDigitsU rest).map (fun n => -(n : Int))
    else (parseDigitsU cs).map (fun n => (n : Int))

/-- Python `int(x)` on a JSON value: booleans as 0/1, numbers truncated
toward zero, strings parsed as integers (`ValueError` on failure), and
`TypeError` on every other type. -/
def pyIntOf : JVal → Except PyExc Int
  | .jbool b => .ok (if b then 1 else 0)
  | .jnum q => .ok (q.num.tdiv q.den)
  | .jstr s =>
    match pyIntOfString? s with
    | some n => .ok n
    | none => .error (.valueError ("invalid literal for int"))
  | .null => .error (.typeError ("int argument must not be None"))
  | .jarr _ => .error (.typeError ("int argument must not be a list"))
  | .jobj _ => .error (.typeError ("int argument must not be a dict"))

/-- `_metric(tweet, key)`: `metrics = tweet.get("public_metrics") or {}`,
`val = metrics.get(key)`, then `int(val or 0)` with `TypeError`/`ValueError`
swallowed to `0`.  Failures of the two `.get` calls themselves (non-dict
receivers) are not caught by the source and propagate. -/
def _metric (tweet : JVal) (key : String) : Except PyExc Int :=
  match dictGet tweet ("public_metrics") with
  | .error e => .error e
  | .ok m0 =>
    match dictGet (pyOr (m0.getD .null) (.jobj [])) key with
    | .error e => .error e
    | .ok val =>
      match pyIntOf (pyOr (val.getD .null) (.jnum 0)) with
      | .ok n => .ok n
      | .error (.typeError _) => .ok 0
      | .error (.valueError _) => .ok 0
      | .error e => .error e

/-- Total value of `_metric` on items where it does not raise. -/
def metricVal (tweet : JVal) (key : String) : Int :=
  ((_metric tweet key).toOption).getD 0

/-- An item is well formed for `_metric` when it is a dict whose
`public_metrics` field, if present and truthy, is itself a dict — exactly
the domain on which `_metric` cannot raise. -/
def WFItem (t : JVal) : Bool :=
  match t with
  | .jobj fs =>
    match fs.lookup ("public_metrics") with
    | none => true
    | some m => !pyTruthy m || (match m with | .jobj _ => true | _ => false)
  | _ => false

/-- `_filter_tweets(tweets, min_likes=.., min_replies=.., min_retweets=..)`:
keep the items whose three metrics each reach the corresponding minimum,
preserving order; metric extraction can raise (uncaught) on ill-formed
items. -/
def _filter_tweets : List JVal → Int → Int → Int → Except PyExc (List JVal)
  | [], _, _, _ => .ok []
  | t :: ts, ml, mr, mrt =>
    match _metric t ("like_count") with
    | .error e => .error e
    | .ok lc =>
      if lc < ml then _filter_tweets ts ml mr mrt
      else
        match _metric t ("reply_count") with
        | .error e => .error e
        | .ok rc =>
          if rc < mr then _filter_tweets ts ml mr mrt
          else
            match _metric t ("retweet_count") with
            | .error e => .error e
            | .ok rtc =>
              if rtc < mrt then _filter_tweets ts ml mr mrt
              else
                match _filter_tweets ts ml mr mrt with
                | .error e => .error e
                | .ok rest => .ok (t :: rest)

/-- The pure pass predicate of `_filter_tweets` on well-formed items. -/
def passesFilter (ml mr mrt : Int) (t : JVal) : Bool :=
  decide (ml ≤ metricVal t ("like_count")) &&
  decide (mr ≤ metricVal t ("reply_count")) &&
  decide (mrt ≤ metricVal t ("retweet_count"))

/-- Python `str(x)` rendering of a JSON value.  Exact for `None`, booleans,
strings and integers; non-integer numbers, lists and dicts get a
placeholder rendering (the program only ever applies `str` to `_created_at`
values, which are ISO-8601 strings or absent). -/
def pyStr : JVal → String
  | .null => "None"
  | .jbool b => if b then "True" else "False"
  | .jstr s => s
  | .jnum q => if q.den = 1 then toString q.num else toString q
  | .jarr _ => "<list>"
  | .jobj _ => "<dict>"

/-- `_created_at(tweet)`: `str(tweet.get("created_at") or "")`. -/
def _created_at (tweet : JVal) : Except PyExc String :=
  match dictGet tweet "created_at" with
  | .error e => .error e
  | .ok v => .ok (pyStr (pyOr (v.getD .null) (.jstr "")))

/-- The tuple `_sort_key` returns: a (metric, metric, createdAt) triple for
the three engagement modes, a 1-tuple of `createdAt` for `recent`. -/
inductive SKey where
  | triple (a b : Int) (c : String)
  | single (c : String)
  deriving DecidableEq

/-- Python `<=` on strings, character-list form: lexicographic by code
point, exactly as CPython compares `str` (and as the spec relies on for
ISO-8601 UTC timestamps). -/
def charListLE : List Char → List Char → Bool
  | [], _ => true
  | _ :: _, [] => false
  | a :: as, b :: bs =>
    if a.toNat < b.toNat then true
    else if b.toNat < a.toNat then false
    else charListLE as bs

/-- Python `a <= b` on strings. -/
def strLE (a b : String) : Bool := charListLE a.toList b.toList

/-- Python `<=` on sort-key tuples: lexicographic on the components
(integers numerically, strings by code point).  Comparing a triple against
a single would raise `TypeError` in Python and never happens within one
sort call (all keys come from the same mode); those cases get an arbitrary
fixed answer so that the relation is a total preorder. -/
def skeyLE : SKey → SKey → Bool
  | .triple a1 b1 c1, .triple a2 b2 c2 =>
    decide (a1 < a2 ∨ (a1 = a2 ∧ (b1 < b2 ∨ (b1 = b2 ∧ strLE c1 c2 = true))))
  | .single c1, .single c2 => strLE c1 c2
  | .triple _ _ _, .single _ => true
  | .single _, .triple _ _ _ => false

/-- Build the `(metric, metric, createdAt)` tuple of `_sort_key`,
propagating the leftmost exception as Python would. -/
def triKey (x y : Except PyExc Int) (z : Except PyExc String) : Except PyExc SKey :=
  match x with
  | .error e => .error e
  | .ok a =>
    match y with
    | .error e => .error e
    | .ok b =>
      match z with
      | .error e => .error e
      | .ok c => .ok (.triple a b c)

/-- `_sort_key(tweet, sort)`: `s = sort.lower()`, then the composite key of
the mode — likes → (likeCount, replyCount, createdAt), replies →
(replyCount, likeCount, createdAt), retweets → (retweetCount, likeCount,
createdAt), default → (createdAt,). -/
def _sort_key (tweet : JVal) (sort : String) : Except PyExc SKey :=
  let s := pyLower sort
  if s = "likes" then
    triKey (_metric tweet "like_count") (_metric tweet "reply_count") (_created_at tweet)
  else if s = "replies" then
    triKey (_metric tweet "reply_count") (_metric tweet "like_count") (_created_at tweet)
  else if s = "retweets" then
    triKey (_metric tweet "retweet_count") (_metric tweet "like_count") (_created_at tweet)
  else
    match _created_at tweet with
    | .error e => .error e
    | .ok c => .ok (.single c)

/-- Total value of `_sort_key` on items where it does not raise. -/
def sortKeyVal (tweet : JVal) (sort : String) : SKey :=
  ((_sort_key tweet sort).toOption).getD (.single "")

/-- `tweets.sort(key=lambda t: _sort_key(t, sort), reverse=True)` as CPython
performs it: compute every key first (decorate), stable-sort the pairs in
descending key order (ties keep input order), drop the keys.  A key
computation that raises aborts the sort.  CPython's Timsort is modelled by
insertion sort: both are stable, and a stable sort of a total preorder has
a unique result. -/
def sortTweets (tweets : List JVal) (sort : String) : Except PyExc (List JVal) :=
  match tweets.mapM (fun t =>
      (match _sort_key t sort with
       | .error e => .error e
       | .ok k => .ok (k, t) : Except PyExc (SKey × JVal))) with
  | .error e => .error e
  | .ok decorated =>
    .ok ((decorated.insertionSort (fun x y => skeyLE y.1 x.1 = true)).map Prod.snd)

/-- Python `needle in hay` on strings: substring containment. -/
def pyIn (needle hay : String) : Bool := decide (needle.toList <:+: hay.toList)

/-- Truthiness of the `Optional[str]` CLI values (`None` and `""` falsy). -/
def pyTruthyOptStr : Option String → Bool
  | none => false
  | some s => decide (s ≠ "")

/-- The quick-mode block of `search_recent` (source lines 251-259): append
`" -is:retweet"` / `" -is:reply"` unless the lowercased original query
already contains the qualifier, and default `since` to `"24h"` when falsy.
Returns the rewritten query and `since`. -/
def quickApply (q : String) (since : Option String) : String × Option String :=
  let ql := pyLower q
  let q1 := if !pyIn "is:retweet" ql && !pyIn "-is:retweet" ql then q ++ " -is:retweet" else q
  let q2 := if !pyIn "is:reply" ql && !pyIn "-is:reply" ql then q1 ++ " -is:reply" else q1
  let since2 := if !pyTruthyOptStr since then some "24h" else since
  (q2, since2)

/-- A Python float, as far as this program can observe one: an exact finite
rational, a signed infinity, or NaN. -/
inductive PyFloat where
  | finite (q : ℚ)
  | inf (neg : Bool)
  | nan
  deriving DecidableEq

/-- Nonempty run of decimal digits with single underscores allowed between
digits, as in Python numeric strings: value and digit count. -/
def parseDigitsCount : List Char → Option (Nat × Nat)
  | [] => none
  | c :: cs =>
    match digitVal? c with
    | none => none
    | some d => go d 1 cs
where
  /-- after at least one digit; an underscore must be followed by a digit. -/
  go (acc cnt : Nat) : List Char → Option (Nat × Nat)
    | [] => some (acc, cnt)
    | c :: cs =>
      match digitVal? c with
      | some d => go (acc * 10 + d) (cnt + 1) cs
      | none =>
        if c = Char.ofNat 95 then
          match cs with
          | [] => none
          | c2 :: cs2 =>
            match digitVal? c2 with
            | some d2 => go (acc * 10 + d2) (cnt + 1) cs2
            | none => none
        else none

/-- The digits of a float-literal exponent: optional sign then digits. -/
def parseExpPart (cs : List Char) : Option Int :=
  match cs with
  | [] => none
  | c :: rest =>
    if c = Char.ofNat 43 then (parseDigitsCount rest).map (fun p => (p.1 : Int))
    else if c = Char.ofNat 45 then (parseDigitsCount rest).map (fun p => -(p.1 : Int))
    else (parseDigitsCount cs).map (fun p => (p.1 : Int))

/-- The mantissa of a float literal: `digits`, `digits.`, `digits.digits`
or `.digits` (underscores between digits). -/
def parseMantissa (cs : List Char) : Option ℚ :=
  let (ip, rest) := cs.span (fun c => c != Char.ofNat 46)
  match rest with
  | [] => (parseDigitsCount ip).map (fun p => (p.1 : ℚ))
  | _ :: fp =>
    if fp.contains (Char.ofNat 46) then none
    else
      match ip, fp with
      | [], [] => none
      | [], _ =>
        (parseDigitsCount fp).map (fun p => (p.1 : ℚ) / 10 ^ p.2)
      | _, [] =>
        (parseDigitsCount ip).map (fun p => (p.1 : ℚ))
      | _, _ => do
        let i ← parseDigitsCount ip
        let f ← parseDigitsCount fp
        pure ((i.1 : ℚ) + (f.1 : ℚ) / 10 ^ f.2)

/-- Python `float(s)` on a string: strip surrounding whitespace, optional
sign, then (case-insensitively) `inf`/`infinity`/`nan` or a decimal
literal with optional fraction and exponent.  The numeric value is kept
exact (no binary rounding); the program only compares the result against
small integers, where rounding never matters. -/
def pyFloatOfString? (s : String) : Option PyFloat :=
  let cs := ((pyStrip s).toList).map Char.toLower
  match cs with
  | [] => none
  | _ =>
    let sgn : Bool × List Char :=
      match cs with
      | c :: t =>
        if c = Char.ofNat 43 then (false, t)
        else if c = Char.ofNat 45 then (true, t)
        else (false, cs)
      | [] => (false, cs)
    let neg := sgn.1
    let rest := sgn.2
    if rest = ['i', 'n', 'f'] ∨ rest = "infinity".toList then some (.inf neg)
    else if rest = ['n', 'a', 'n'] then some .nan
    else
      let (mant, erest) := rest.span (fun c => c != Char.ofNat 101)
      match erest with
      | [] => (parseMantissa mant).map (fun q => .finite (if neg then -q else q))
      | _ :: ecs => do
        let m ← parseMantissa mant
        let e ← parseExpPart ecs
        pure (.finite ((if neg then -m else m) * (10 : ℚ) ^ e))

/-- Simplified `repr` of a Python string (quotes, no escaping), as it
appears in `float()` error messages for plain inputs. -/
def pyRepr (s : String) : String := "'" ++ s ++ "'"

/-- `datetime.timedelta(hours=f)` (`perHour = 3600`) or `(days=f)`
(`perHour = 86400`), in seconds.  NaN raises `ValueError`, infinities and
magnitudes beyond 999999999 days raise `OverflowError` (the bound is
modelled at second granularity). -/
def timedeltaSeconds (secondsPerUnit : ℚ) (f : PyFloat) : Except PyExc ℚ :=
  match f with
  | .nan => .error (.valueError "cannot convert float NaN to integer")
  | .inf _ => .error (.overflowError "cannot convert float infinity to integer")
  | .finite q =>
    let secs := q * secondsPerUnit
    if secs < -999999999 * 86400 ∨ secs > 999999999 * 86400 + 86399 then
      .error (.overflowError "days must have magnitude less than 1000000000")
    else .ok secs

/-- `_parse_since(value)`: strip and lowercase; `<number>h` →
`timedelta(hours=float(number))`, `<number>d` → `timedelta(days=...)`,
anything else → `ValueError` with the canonical usage message.  A suffixed
string whose number `float()` cannot parse raises `float`'s own
`ValueError` instead.  The timedelta is returned as exact seconds. -/
def _parse_since (value : String) : Except PyExc ℚ :=
  let raw := pyLower (pyStrip value)
  if strEndsWith raw "h" then
    match pyFloatOfString? (pyDropRight raw 1) with
    | none => .error (.valueError ("could not convert string to float: " ++ pyRepr (pyDropRight raw 1)))
    | some f => timedeltaSeconds 3600 f
  else if strEndsWith raw "d" then
    match pyFloatOfString? (pyDropRight raw 1) with
    | none => .error (.valueError ("could not convert string to float: " ++ pyRepr (pyDropRight raw 1)))
    | some f => timedeltaSeconds 86400 f
  else .error (.valueError "--since must be like 1h, 3h, 12h, 1d, 7d")
/-- UTF-8 encoding of one character, as a list of byte values. -/
def utf8EncodeChar (c : Char) : List Nat :=
  let n := c.toNat
  if n < 0x80 then [n]
  else if n < 0x800 then [0xC0 + n / 64, 0x80 + n % 64]
  else if n < 0x10000 then [0xE0 + n / 4096, 0x80 + (n / 64) % 64, 0x80 + n % 64]
  else [0xF0 + n / 262144, 0x80 + (n / 4096) % 64, 0x80 + (n / 64) % 64, 0x80 + n % 64]

/-- `s.encode("utf-8")` as a list of byte values. -/
def utf8Encode (s : String) : List Nat := (s.toList.map utf8EncodeChar).flatten

/-- Right rotation of a 32-bit word held in a `Nat`. -/
def rotr32 (x k : Nat) : Nat := x / 2 ^ k + x % 2 ^ k * 2 ^ (32 - k)

def bsig0 (x : Nat) : Nat := rotr32 x 2 ^^^ rotr32 x 13 ^^^ rotr32 x 22

def bsig1 (x : Nat) : Nat := rotr32 x 6 ^^^ rotr32 x 11 ^^^ rotr32 x 25

def ssig0 (x : Nat) : Nat := rotr32 x 7 ^^^ rotr32 x 18 ^^^ x / 2 ^ 3

def ssig1 (x : Nat) : Nat := rotr32 x 17 ^^^ rotr32 x 19 ^^^ x / 2 ^ 10

/-- The SHA-256 round constants. -/
def sha256K : List Nat :=
  [1116352408, 1899447441, 3049323471, 3921009573, 961987163, 1508970993,
   2453635748, 2870763221, 3624381080, 310598401, 607225278, 1426881987,
   1925078388, 2162078206, 2614888103, 3248222580, 3835390401, 4022224774,
   264347078, 604807628, 770255983, 1249150122, 1555081692, 1996064986,
   2554220882, 2821834349, 2952996808, 3210313671, 3336571891, 3584528711,
   113926993, 338241895, 666307205, 773529912, 1294757372, 1396182291,
   1695183700, 1986661051, 2177026350, 2456956037, 2730485921, 2820302411,
   3259730800, 3345764771, 3516065817, 3600352804, 4094571909, 275423344,
   430227734, 506948616, 659060556, 883997877, 958139571, 1322822218,
   1537002063, 1747873779, 1955562222, 2024104815, 2227730452, 2361852424,
   2428436474, 2756734187, 3204031479, 3329325298]

/-- The SHA-256 initial hash value. -/
def sha256H0 : List Nat :=
  [1779033703, 3144134277, 1013904242, 2773480762,
   1359893119, 2600822924, 528734635, 1541459225]

/-- SHA-256 message padding: `0x80`, zeros, then the bit length as eight
big-endian bytes, to a multiple of 64 bytes. -/
def sha256Pad (msg : List Nat) : List Nat :=
  let L := msg.length
  let k := (64 - (L + 9) % 64) % 64
  msg ++ [0x80] ++ List.replicate k 0 ++
    (List.range 8).map (fun i => L * 8 / 2 ^ (8 * (7 - i)) % 256)

/-- Big-endian 32-bit words from bytes. -/
def bytesToWords : List Nat → List Nat
  | b0 :: b1 :: b2 :: b3 :: rest =>
    (b0 * 2 ^ 24 + b1 * 2 ^ 16 + b2 * 2 ^ 8 + b3) :: bytesToWords rest
  | _ => []

/-- Extend the 16-word message schedule by `k` more words. -/
def schedExt (ws : List Nat) : Nat → List Nat
  | 0 => ws
  | k + 1 =>
    let n := ws.length
    let nw := (ssig1 (ws.getD (n - 2) 0) + ws.getD (n - 7) 0 +
      ssig0 (ws.getD (n - 15) 0) + ws.getD (n - 16) 0) % 2 ^ 32
    schedExt (ws ++ [nw]) k

/-- The eight SHA-256 working registers. -/
structure H8 where
  a : Nat
  b : Nat
  c : Nat
  d : Nat
  e : Nat
  f : Nat
  g : Nat
  h : Nat

/-- One SHA-256 compression round. -/
def sha256Step (st : H8) (kw : Nat × Nat) : H8 :=
  let S1 := bsig1 st.e
  let ch := st.e &&& st.f ^^^ (0xFFFFFFFF - st.e % 2 ^ 32) &&& st.g
  let temp1 := (st.h + S1 + ch + kw.1 + kw.2) % 2 ^ 32
  let S0 := bsig0 st.a
  let maj := st.a &&& st.b ^^^ st.a &&& st.c ^^^ st.b &&& st.c
  let temp2 := (S0 + maj) % 2 ^ 32
  ⟨(temp1 + temp2) % 2 ^ 32, st.a, st.b, st.c, (st.d + temp1) % 2 ^ 32, st.e, st.f, st.g⟩

/-- Compress one 64-byte block into the running hash. -/
def sha256Block (h : List Nat) (block : List Nat) : List Nat :=
  let w := schedExt (bytesToWords block) 48
  let i : H8 := ⟨h.getD 0 0, h.getD 1 0, h.getD 2 0, h.getD 3 0,
    h.getD 4 0, h.getD 5 0, h.getD 6 0, h.getD 7 0⟩
  let f := (sha256K.zip w).foldl sha256Step i
  [(i.a + f.a) % 2 ^ 32, (i.b + f.b) % 2 ^ 32, (i.c + f.c) % 2 ^ 32, (i.d + f.d) % 2 ^ 32,
   (i.e + f.e) % 2 ^ 32, (i.f + f.f) % 2 ^ 32, (i.g + f.g) % 2 ^ 32, (i.h + f.h) % 2 ^ 32]

/-- The padded message split into 64-byte blocks. -/
def chunks64 (bytes : List Nat) : List (List Nat) :=
  (List.range (bytes.length / 64)).map (fun i => (bytes.drop (64 * i)).take 64)

/-- The eight 32-bit words of the SHA-256 digest of a byte string. -/
def sha256Words (msg : List Nat) : List Nat :=
  (chunks64 (sha256Pad msg)).foldl sha256Block sha256H0

/-- Eight lowercase hex digits of a 32-bit word. -/
def toHex8 (w : Nat) : String :=
  String.mk ((List.range 8).map (fun i => Nat.digitChar (w / 16 ^ (7 - i) % 16)))

/-- `hashlib.sha256(bytes).hexdigest()`. -/
def sha256Hex (msg : List Nat) : String := String.join ((sha256Words msg).map toHex8)

/-- `_cache_key(url)`: `hashlib.sha256(url.encode("utf-8")).hexdigest()`. -/
def _cache_key (url : String) : String := sha256Hex (utf8Encode url)


/-- `_cache_path(url)`: the file name `<sha256 hex>.json` under the cache
directory. -/
def _cache_path (url : String) : String := _cache_key url ++ ".json"

/-- The observable content of one cache file: unreadable (permission or
I/O error on stat/read), readable but not valid JSON, or a JSON payload. -/
inductive FileContent where
  | unreadable
  | notJson
  | json (v : JVal)
  deriving DecidableEq

/-- The state of one path in the cache directory. -/
inductive FileState where
  | absent
  | withMtime (mtime : Int) (content : FileContent)
  deriving DecidableEq

/-- The cache directory as an association list file name → state; a write
prepends and a read takes the first match. -/
abbrev CacheDir := List (String × FileState)

/-- `_read_cache(url, ttl_seconds)` against an explicit directory and
clock (seconds): `None` unless the file exists, its age `now - mtime` is
at most `ttl_seconds`, it is readable and its content parses as JSON —
the source swallows every exception into `None`. -/
def _read_cache (dir : CacheDir) (now : Int) (url : String) (ttl_seconds : Int) : Option JVal :=
  match dir.lookup (_cache_path url) with
  | none => none
  | some .absent => none
  | some (.withMtime m c) =>
    if now - m > ttl_seconds then none
    else
      match c with
      | .json v => some v
      | _ => none

/-- `_write_cache(url, obj)`: best effort — when the directory cannot be
created or the file cannot be written (`writable = false`) the write is
silently skipped and the directory is unchanged. -/
def _write_cache (writable : Bool) (dir : CacheDir) (now : Int) (url : String) (obj : JVal) :
    CacheDir :=
  if writable then (_cache_path url, .withMtime now (.json obj)) :: dir else dir

/-- What one URL fetch can produce, abstracting lines 112-146 of `_get`: a
decoded JSON payload, a 2xx body that is not JSON, or a transport/HTTP
failure already rendered to the `XRadarError` message the source builds
for it (lines 118-141). -/
inductive NetResult where
  | ok (v : JVal)
  | notJson
  | fail (msg : String)

/-- The process state one CLI invocation observes: the cache directory and
its writability, the wall clock (whole seconds), the two credential
environment variables, the network, and the log of URLs actually sent to
the network. -/
structure World where
  dir : CacheDir
  writable : Bool
  now : Int
  xBearerToken : Option String
  twitterBearerToken : Option String
  net : String → NetResult
  log : List String

/-- The exception classes `main` distinguishes (lines 472-480):
`ValueError`, `XRadarError`, and any other exception with its class name. -/
inductive AppErr where
  | valueError (msg : String)
  | xradarError (msg : String)
  | otherError (name msg : String)
  deriving DecidableEq

/-- An uncaught `PyExc` as `main` classifies it. -/
def liftExc : PyExc → AppErr
  | .valueError m => .valueError m
  | .typeError m => .otherError "TypeError" m
  | .attributeError m => .otherError "AttributeError" m
  | .overflowError m => .otherError "OverflowError" m

/-- `_bearer()`: `os.getenv("X_BEARER_TOKEN") or os.getenv("TWITTER_BEARER_TOKEN")`,
raising `XRadarError` when the result is falsy (unset or empty). -/
def _bearer (w : World) : Except AppErr String :=
  let token : Option String :=
    match w.xBearerToken with
    | some s => if s = "" then w.twitterBearerToken else some s
    | none => w.twitterBearerToken
  match token with
  | some t => if t = "" then .error (.xradarError "Missing X_BEARER_TOKEN env var") else .ok t
  | none => .error (.xradarError "Missing X_BEARER_TOKEN env var")

/-- The network half of `_get` (lines 112-151): resolve the bearer token
(before any request), perform the logged fetch, decode, and — with caching
enabled — store the decoded payload. -/
def getFetch (w : World) (url : String) (cache_ttl_seconds : Int) (no_cache : Bool) :
    Except AppErr (JVal × Bool) × World :=
  match _bearer w with
  | .error e => (.error e, w)
  | .ok _ =>
    let w1 : World := { w with log := w.log ++ [url] }
    match w1.net url with
    | .fail msg => (.error (.xradarError msg), w1)
    | .notJson => (.error (.xradarError "X API returned invalid JSON response"), w1)
    | .ok obj =>
      if no_cache = false ∧ cache_ttl_seconds > 0 then
        (.ok (obj, false), { w1 with dir := _write_cache w1.writable w1.dir w1.now url obj })
      else (.ok (obj, false), w1)

/-- `_get(url, cache_ttl_seconds=..., no_cache=...)`: consult the cache
first unless bypassed or the TTL is nonpositive; return a fresh entry as a
hit, otherwise fall through to the network. -/
def _get (w : World) (url : String) (cache_ttl_seconds : Int) (no_cache : Bool) :
    Except AppErr (JVal × Bool) × World :=
  if no_cache = false ∧ cache_ttl_seconds > 0 then
    match _read_cache w.dir w.now url cache_ttl_seconds with
    | some cached => (.ok (cached, true), w)
    | none => getFetch w url cache_ttl_seconds no_cache
  else getFetch w url cache_ttl_seconds no_cache

/-- The API base URL. -/
def API : String := "https://api.x.com/2"

/-- An uppercase hex digit. -/
def hexDigitUpper (n : Nat) : Char :=
  if n < 10 then Char.ofNat (48 + n) else Char.ofNat (55 + n)

/-- A `%XX` escape as `urllib.parse.quote` writes it. -/
def pctEncodeByte (n : Nat) : String :=
  "%" ++ String.mk [hexDigitUpper (n / 16), hexDigitUpper (n % 16)]

/-- Unreserved bytes (`A-Z a-z 0-9 _ . - ~`), never percent-encoded. -/
def isUnreservedByte (n : Nat) : Bool :=
  decide ((48 ≤ n ∧ n ≤ 57) ∨ (65 ≤ n ∧ n ≤ 90) ∨ (97 ≤ n ∧ n ≤ 122) ∨
    n = 95 ∨ n = 46 ∨ n = 45 ∨ n = 126)

/-- `urllib.parse.quote(s)` with the default `safe="/"`. -/
def quote (s : String) : String :=
  String.join ((utf8Encode s).map (fun n =>
    if isUnreservedByte n || n == 47 then String.singleton (Char.ofNat n) else pctEncodeByte n))

/-- `urllib.parse.quote_plus` as `urlencode` applies it to each key and
value: space becomes `+`, only unreserved bytes stay literal. -/
def quote_plus (s : String) : String :=
  String.join ((utf8Encode s).map (fun n =>
    if n == 32 then "+"
    else if isUnreservedByte n then String.singleton (Char.ofNat n)
    else pctEncodeByte n))

/-- `urllib.parse.urlencode(qp)` over the ordered parameter list. -/
def urlencode (qp : List (String × String)) : String :=
  strIntercalate "&" (qp.map (fun kv => quote_plus kv.1 ++ "=" ++ quote_plus kv.2))

/-- Gregorian date `(year, month, day)` of a day number (days since
1970-01-01), by the standard civil-from-days algorithm. -/
def civilFromDays (z0 : Int) : Int × Nat × Nat :=
  let z := z0 + 719468
  let era := (if z ≥ 0 then z else z - 146096) / 146097
  let doe := (z - era * 146097).toNat
  let yoe := (doe - doe / 1460 + doe / 36524 - doe / 146096) / 365
  let y := (yoe : Int) + era * 400
  let doy := doe - (365 * yoe + yoe / 4 - yoe / 100)
  let mp := (5 * doy + 2) / 153
  let d := doy - (153 * mp + 2) / 5 + 1
  let m := if mp < 10 then mp + 3 else mp - 9
  (if m ≤ 2 then y + 1 else y, m, d)

/-- Two decimal digits. -/
def pad2 (n : Nat) : String := if n < 10 then "0" ++ toString n else toString n

/-- `_to_iso_utc(dt)` for a UTC timestamp `t` in (possibly fractional)
seconds since the epoch: microseconds zeroed (floor to a second), ISO-8601
with the `+00:00` offset rewritten to `Z`.  Years are rendered without
padding (every timestamp the program produces is four digits). -/
def _to_iso_utc (t : ℚ) : String :=
  let s : Int := ⌊t⌋
  let days := s.fdiv 86400
  let sod := (s - days * 86400).toNat
  let ymd := civilFromDays days
  toString ymd.1 ++ "-" ++ pad2 ymd.2.1 ++ "-" ++ pad2 ymd.2.2 ++ "T" ++
    pad2 (sod / 3600) ++ ":" ++ pad2 (sod % 3600 / 60) ++ ":" ++ pad2 (sod % 60) ++ "Z"

/-- `COST_POST_READ_USD = 0.005`, kept exact. -/
def COST_POST_READ_USD : ℚ := 5 / 1000

/-- `COST_USER_LOOKUP_USD = 0.010`, kept exact. -/
def COST_USER_LOOKUP_USD : ℚ := 10 / 1000

/-- `PRICING_LAST_REVIEWED_UTC`. -/
def PRICING_LAST_REVIEWED_UTC : String := "2026-02-13"

/-- The `CostEstimate` dataclass. -/
structure CostEstimate where
  requests : Int
  post_reads : Int
  user_lookups : Int

/-- Round a rational to the nearest integer, ties to even — Python's
`round`. -/
def roundHalfEven (q : ℚ) : Int :=
  let f := ⌊q⌋
  let r := q - f
  if r < 1 / 2 then f
  else if r > 1 / 2 then f + 1
  else if f % 2 = 0 then f else f + 1

/-- Python `round(x, 3)` on exact rationals. -/
def round3 (q : ℚ) : ℚ := (roundHalfEven (q * 1000) : ℚ) / 1000

/-- `CostEstimate.usd`. -/
def CostEstimate.usd (c : CostEstimate) : ℚ :=
  c.post_reads * COST_POST_READ_USD + c.user_lookups * COST_USER_LOOKUP_USD

/-- `CostEstimate.as_dict()`. -/
def CostEstimate.as_dict (c : CostEstimate) : JVal :=
  .jobj [("requests", .jnum (c.requests : ℚ)),
    ("post_reads", .jnum (c.post_reads : ℚ)),
    ("user_lookups", .jnum (c.user_lookups : ℚ)),
    ("estimated_usd", .jnum (round3 c.usd)),
    ("assumptions", .jobj [
      ("post_read_usd", .jnum COST_POST_READ_USD),
      ("user_lookup_usd", .jnum COST_USER_LOOKUP_USD),
      ("pricing_last_reviewed_utc", .jstr PRICING_LAST_REVIEWED_UTC),
      ("note", .jstr "Estimate only. Actual X billing may differ by tier/resource.")])]

/-- Python `list(x)` on a JSON value: lists copied, strings exploded into
one-character strings, dicts into their keys, non-iterables raise
`TypeError`. -/
def pyList : JVal → Except PyExc (List JVal)
  | .jarr xs => .ok xs
  | .jstr s => .ok (s.toList.map (fun c => .jstr (String.singleton c)))
  | .jobj fs => .ok (fs.map (fun kv => .jstr kv.1))
  | _ => .error (.typeError "object is not iterable")

/-- `d.get(k)` on a value already known to be a dict, with Python `None`
rendered as JSON `null` (as `json.dump` would). -/
def jgetOrNull (v : JVal) (k : String) : JVal :=
  match v with
  | .jobj fs => (fs.lookup k).getD .null
  | _ => .null

/-- `{"error": {"code": code, "message": message}}` — `_error_payload`. -/
def _error_payload (code message : String) : JVal :=
  .jobj [("error", .jobj [("code", .jstr code), ("message", .jstr message)])]

/-- The `try/except` envelope of `main` (lines 437-483) applied to a
subcommand outcome: the JSON document written to stdout and the process
exit code (`ValueError` → `invalid_arguments`/2, `XRadarError` →
`runtime_error`/1, anything else → `internal_error`/1, success → 0). -/
def mainHandle (r : Except AppErr JVal) : JVal × Nat :=
  match r with
  | .ok out => (out, 0)
  | .error (.valueError m) => (_error_payload "invalid_arguments" m, 2)
  | .error (.xradarError m) => (_error_payload "runtime_error" m, 1)
  | .error (.otherError n m) => (_error_payload "internal_error" (n ++ ": " ++ m), 1)

/-- The raw-results pipeline shared by `search_recent` and `user_tweets`:
`tweets = list(raw.get("data") or [])`, `_filter_tweets`, the descending
sort, and `tweets[: max(1, int(limit))]`.  Returns the pre-filter list
(whose length prices post reads) and the final list. -/
def rankPipeline (raw : JVal) (limit : Int) (sort : String)
    (min_likes min_replies min_retweets : Int) :
    Except PyExc (List JVal × List JVal) :=
  match dictGet raw "data" with
  | .error e => .error e
  | .ok d =>
    match pyList (pyOr (d.getD .null) (.jarr [])) with
    | .error e => .error e
    | .ok tweets0 =>
      match _filter_tweets tweets0 min_likes min_replies min_retweets with
      | .error e => .error e
      | .ok tweets1 =>
        match sortTweets tweets1 sort with
        | .error e => .error e
        | .ok tweets2 => .ok (tweets0, tweets2.take (max 1 limit).toNat)

/-- `search_recent(query, limit=…, sort=…, since=…, min_likes=…,
min_replies=…, min_retweets=…, quick=…)` over a `World`: quick-mode query
rewriting, `since` resolution to `start_time`, URL construction, `_get`
with the mode's TTL, the ranking pipeline, cost computation (line 288) and
the response envelope. -/
def search_recent (w : World) (query : String) (limit : Int) (sort : String)
    (since0 : Option String) (min_likes min_replies min_retweets : Int) (quick : Bool) :
    Except AppErr JVal × World :=
  let qs := if quick then quickApply query since0 else (query, since0)
  let q := qs.1
  let since := qs.2
  let startRes : Except PyExc (Option String) :=
    match since with
    | some sv =>
      if sv = "" then .ok none
      else (_parse_since sv).map (fun delta => some (_to_iso_utc ((w.now : ℚ) - delta)))
    | none => .ok none
  match startRes with
  | .error e => (.error (liftExc e), w)
  | .ok start_time =>
    let max_results : Nat := if quick then 10 else 100
    let qp : List (String × String) :=
      [("query", q),
       ("max_results", toString max_results),
       ("tweet.fields", "created_at,public_metrics,author_id,conversation_id"),
       ("expansions", "author_id"),
       ("user.fields", "username,name,verified")] ++
      (match start_time with
       | some st => [("start_time", st)]
       | none => [])
    let url := API ++ "/tweets/search/recent?" ++ urlencode qp
    let ttl : Int := if quick then 3600 else 900
    match _get w url ttl false with
    | (.error e, w1) => (.error e, w1)
    | (.ok (raw, cache_hit), w1) =>
      match rankPipeline raw limit sort min_likes min_replies min_retweets with
      | .error e => (.error (liftExc e), w1)
      | .ok (tweets0, tweets) =>
        let cost : CostEstimate :=
          ⟨if cache_hit then 0 else 1,
           if cache_hit then 0 else (tweets0.length : Int), 0⟩
        let envelope : JVal := .jobj [
          ("x_radar", .jobj [
            ("mode", .jstr "search"),
            ("query", .jstr q),
            ("since", match since with | none => .null | some s => .jstr s),
            ("sort", .jstr sort),
            ("quick", .jbool quick),
            ("filters", .jobj [
              ("min_likes", .jnum (min_likes : ℚ)),
              ("min_replies", .jnum (min_replies : ℚ)),
              ("min_retweets", .jnum (min_retweets : ℚ))]),
            ("returned", .jnum (tweets.length : ℚ)),
            ("cost", cost.as_dict)]),
          ("data", .jarr tweets),
          ("includes", jgetOrNull raw "includes"),
          ("meta", jgetOrNull raw "meta")]
        (.ok envelope, w1)

/-- `user_by_username(username, cache_ttl_seconds=…, no_cache=…)`. -/
def user_by_username (w : World) (username : String) (cache_ttl_seconds : Int)
    (no_cache : Bool) : Except AppErr (JVal × Bool) × World :=
  let u := String.mk (username.toList.dropWhile (fun c => c == Char.ofNat 64))
  let url := API ++ "/users/by/username/" ++ quote u ++
    "?user.fields=public_metrics,verified,created_at"
  _get w url cache_ttl_seconds no_cache

/-- `tweet_by_id(tweet_id, cache_ttl_seconds=…, no_cache=…)`. -/
def tweet_by_id (w : World) (tweet_id : String) (cache_ttl_seconds : Int)
    (no_cache : Bool) : Except AppErr (JVal × Bool) × World :=
  let tid := quote tweet_id
  let qp : List (String × String) :=
    [("ids", tid),
     ("tweet.fields", "created_at,public_metrics,author_id,conversation_id"),
     ("expansions", "author_id"),
     ("user.fields", "username,name,verified")]
  let url := API ++ "/tweets?" ++ urlencode qp
  _get w url cache_ttl_seconds no_cache

/-- `user_tweets(username, limit=…, sort=…, min_likes=…, min_replies=…,
min_retweets=…)`: the username lookup, the missing-id short-circuit, the
author-tweets fetch, the ranking pipeline, and per-fetch cost attribution
(lines 352-357). -/
def user_tweets (w : World) (username : String) (limit : Int) (sort : String)
    (min_likes min_replies min_retweets : Int) : Except AppErr JVal × World :=
  match user_by_username w username 900 false with
  | (.error e, w1) => (.error e, w1)
  | (.ok (user_raw, cache_hit_user), w1) =>
    match (match dictGetD user_raw "data" (.jobj []) with
           | .error e => .error e
           | .ok d => dictGet d "id" : Except PyExc (Option JVal)) with
    | .error e => (.error (liftExc e), w1)
    | .ok uidOpt =>
      let user_id := uidOpt.getD .null
      if pyTruthy user_id = false then
        (.ok (.jobj [("error", .jstr "user not found"), ("user", user_raw)]), w1)
      else
        let url := API ++ "/users/" ++ pyStr user_id ++ "/tweets?max_results=100" ++
          "&tweet.fields=created_at,public_metrics,conversation_id" ++
          "&exclude=replies,retweets"
        match _get w1 url 900 false with
        | (.error e, w2) => (.error e, w2)
        | (.ok (raw, cache_hit_tweets), w2) =>
          match rankPipeline raw limit sort min_likes min_replies min_retweets with
          | .error e => (.error (liftExc e), w2)
          | .ok (tweets0, tweets) =>
            let requests : Int :=
              (if cache_hit_user then 0 else 1) + (if cache_hit_tweets then 0 else 1)
            let cost : CostEstimate :=
              ⟨requests,
               if cache_hit_tweets then 0 else (tweets0.length : Int),
               if cache_hit_user then 0 else 1⟩
            let envelope : JVal := .jobj [
              ("x_radar", .jobj [
                ("mode", .jstr "user-tweets"),
                ("username", .jstr username),
                ("sort", .jstr sort),
                ("filters", .jobj [
                  ("min_likes", .jnum (min_likes : ℚ)),
                  ("min_replies", .jnum (min_replies : ℚ)),
                  ("min_retweets", .jnum (min_retweets : ℚ))]),
                ("cache", .jobj [
                  ("user_lookup_hit", .jbool cache_hit_user),
                  ("tweets_hit", .jbool cache_hit_tweets)]),
                ("returned", .jnum (tweets.length : ℚ)),
                ("cost", cost.as_dict)]),
              ("user", jgetOrNull user_raw "data"),
              ("data", .jarr tweets),
              ("meta", jgetOrNull raw "meta")]
            (.ok envelope, w2)

/-- The `tweet` subcommand body (lines 450-462): fetch by id, then the
single-item envelope with its one-read cost estimate. -/
def mainTweetOut (w : World) (id : String) (no_cache : Bool) :
    Except AppErr JVal × World :=
  match tweet_by_id w id 900 no_cache with
  | (.error e, w1) => (.error e, w1)
  | (.ok (raw, cache_hit), w1) =>
    match dictGet raw "data" with
    | .error e => (.error (liftExc e), w1)
    | .ok d =>
      let cost : CostEstimate :=
        ⟨if cache_hit then 0 else 1, if cache_hit then 0 else 1, 0⟩
      let out : JVal := .jobj [
        ("x_radar", .jobj [
          ("mode", .jstr "tweet"),
          ("id", .jstr id),
          ("cache_hit", .jbool cache_hit),
          ("cost", cost.as_dict)]),
        ("data", pyOr (d.getD .null) (.jarr [])),
        ("includes", jgetOrNull raw "includes"),
        ("errors", jgetOrNull raw "errors")]
      (.ok out, w1)

/-- `main` on the `search` subcommand: the printed JSON and the exit code,
with the updated world. -/
def mainSearch (w : World) (query : String) (limit : Int) (sort : String)
    (since : Option String) (min_likes min_replies min_retweets : Int) (quick : Bool) :
    (JVal × Nat) × World :=
  let r := search_recent w query limit sort since min_likes min_replies min_retweets quick
  (mainHandle r.1, r.2)

/-- `main` on the `tweet` subcommand. -/
def mainTweet (w : World) (id : String) (no_cache : Bool) : (JVal × Nat) × World :=
  let r := mainTweetOut w id no_cache
  (mainHandle r.1, r.2)

/-- `main` on the `user-tweets` subcommand. -/
def mainUserTweets (w : World) (username : String) (limit : Int) (sort : String)
    (min_likes min_replies min_retweets : Int) : (JVal × Nat) × World :=
  let r := user_tweets w username limit sort min_likes min_replies min_retweets
  (mainHandle r.1, r.2)

/-- Total value of `_created_at` on items where it does not raise. -/
def createdVal (tweet : JVal) : String :=
  ((_created_at tweet).toOption).getD ""

/-- Field access along a key path in a JSON object tree. -/
def jpath (v : JVal) : List String → Option JVal
  | [] => some v
  | k :: ks =>
    match v with
    | .jobj fs =>
      match fs.lookup k with
      | some u => jpath u ks
      | none => none
    | _ => none


/-- Decidable equality of `Except` results, for concrete evaluation in the
theorems below. -/
instance {ε α : Type} [DecidableEq ε] [DecidableEq α] : DecidableEq (Except ε α) := fun a b =>
  match a, b with
  | .ok x, .ok y => if h : x = y then .isTrue (by rw [h]) else .isFalse (by simp [h])
  | .error x, .error y => if h : x = y then .isTrue (by rw [h]) else .isFalse (by simp [h])
  | .ok _, .error _ => .isFalse (by simp)
  | .error _, .ok _ => .isFalse (by simp)

/-! ### Helper lemmas -/

theorem pyOr_pos {a : JVal} (b : JVal) (h : pyTruthy a = true) : pyOr a b = a := by
  simp [pyOr, h]

theorem pyOr_neg {a : JVal} (b : JVal) (h : pyTruthy a = false) : pyOr a b = b := by
  simp [pyOr, h]

theorem pyIntOf_cases (v : JVal) :
    (∃ n, pyIntOf v = .ok n) ∨ (∃ m, pyIntOf v = .error (.typeError m)) ∨
      (∃ m, pyIntOf v = .error (.valueError m)) := by
  cases v with
  | jstr s =>
    cases h : pyIntOfString? s with
    | none => right; right; exact ⟨"invalid literal for int", by simp [pyIntOf, h]⟩
    | some n => left; exact ⟨n, by simp [pyIntOf, h]⟩
  | null => right; left; exact ⟨_, rfl⟩
  | jbool b => left; exact ⟨_, rfl⟩
  | jnum q => left; exact ⟨_, rfl⟩
  | jarr xs => right; left; exact ⟨_, rfl⟩
  | jobj fs => right; left; exact ⟨_, rfl⟩

theorem metric_exists_ok (t : JVal) (k : String) (h : WFItem t = true) :
    ∃ n, _metric t k = .ok n := by
  cases t with
  | jobj fs =>
    unfold _metric
    rw [show dictGet (JVal.jobj fs) "public_metrics" = .ok (fs.lookup "public_metrics") from
      rfl]
    cases hm : fs.lookup "public_metrics" with
    | none => exact ⟨0, by rfl⟩
    | some m =>
      dsimp only
      by_cases htr : pyTruthy m = true
      · have hobj : ∃ mfs, m = .jobj mfs := by
          simp only [WFItem, hm] at h
          cases m <;> simp_all [pyTruthy]
        obtain ⟨mfs, rfl⟩ := hobj
        rw [Option.getD_some, pyOr_pos _ htr]
        cases hv : mfs.lookup k with
        | none =>
          rw [show dictGet (JVal.jobj mfs) k = .ok (mfs.lookup k) from rfl, hv]
          exact ⟨0, by rfl⟩
        | some v =>
          rw [show dictGet (JVal.jobj mfs) k = .ok (mfs.lookup k) from rfl, hv]
          dsimp only
          rw [Option.getD_some]
          by_cases hvt : pyTruthy v = true
          · rw [pyOr_pos _ hvt]
            rcases pyIntOf_cases v with ⟨n, hn⟩ | ⟨m', hm'⟩ | ⟨m', hm'⟩ <;>
              [exact ⟨n, by rw [hn]⟩; exact ⟨0, by rw [hm']⟩; exact ⟨0, by rw [hm']⟩]
          · rw [pyOr_neg _ (by simpa using hvt)]
            exact ⟨0, by rfl⟩
      · rw [Option.getD_some, pyOr_neg _ (by simpa using htr)]
        exact ⟨0, by rfl⟩
  | null => simp [WFItem] at h
  | jbool b => simp [WFItem] at h
  | jnum q => simp [WFItem] at h
  | jstr s => simp [WFItem] at h
  | jarr xs => simp [WFItem] at h

theorem metric_ok (t : JVal) (k : String) (h : WFItem t = true) :
    _metric t k = .ok (metricVal t k) := by
  obtain ⟨n, hn⟩ := metric_exists_ok t k h
  simp [metricVal, hn, Except.toOption]

theorem filter_tweets_ok (ts : List JVal) (ml mr mrt : Int) (h : ∀ t ∈ ts, WFItem t = true) :
    _filter_tweets ts ml mr mrt = .ok (ts.filter (passesFilter ml mr mrt)) := by
  induction ts with
  | nil => rfl
  | cons t ts ih =>
    have ht := h t (by simp)
    have hts : ∀ u ∈ ts, WFItem u = true := fun u hu => h u (by simp [hu])
    have hrec := ih hts
    unfold _filter_tweets
    rw [metric_ok t "like_count" ht, metric_ok t "reply_count" ht,
      metric_ok t "retweet_count" ht]
    dsimp only
    rw [List.filter_cons]
    by_cases h1 : metricVal t "like_count" < ml
    · simp [passesFilter, h1, hrec, not_le.mpr h1]
    · by_cases h2 : metricVal t "reply_count" < mr
      · simp [passesFilter, h1, h2, hrec, not_le.mpr h2]
      · by_cases h3 : metricVal t "retweet_count" < mrt
        · simp [passesFilter, h1, h2, h3, hrec, not_le.mpr h3]
        · simp [passesFilter, h1, h2, h3, hrec, not_lt.mp h1, not_lt.mp h2, not_lt.mp h3]

theorem passesFilter_mono {ml mr mrt ml' mr' mrt' : Int}
    (h1 : ml ≤ ml') (h2 : mr ≤ mr') (h3 : mrt ≤ mrt') (t : JVal)
    (h : passesFilter ml' mr' mrt' t = true) : passesFilter ml mr mrt t = true := by
  simp only [passesFilter, Bool.and_eq_true, decide_eq_true_eq] at h ⊢
  omega

theorem created_exists_ok (t : JVal) (h : WFItem t = true) : ∃ c, _created_at t = .ok c := by
  cases t with
  | jobj fs => exact ⟨_, rfl⟩
  | null => simp [WFItem] at h
  | jbool b => simp [WFItem] at h
  | jnum q => simp [WFItem] at h
  | jstr s => simp [WFItem] at h
  | jarr xs => simp [WFItem] at h

theorem created_ok (t : JVal) (h : WFItem t = true) :
    _created_at t = .ok (createdVal t) := by
  obtain ⟨c, hc⟩ := created_exists_ok t h
  simp [createdVal, hc, Except.toOption]

theorem sort_key_exists_ok (t : JVal) (s : String) (h : WFItem t = true) :
    ∃ k, _sort_key t s = .ok k := by
  obtain ⟨a1, ha1⟩ := metric_exists_ok t "like_count" h
  obtain ⟨a2, ha2⟩ := metric_exists_ok t "reply_count" h
  obtain ⟨a3, ha3⟩ := metric_exists_ok t "retweet_count" h
  obtain ⟨c, hc⟩ := created_exists_ok t h
  unfold _sort_key
  dsimp only
  split_ifs <;> [rw [ha1, ha2, hc]; rw [ha2, ha1, hc]; rw [ha3, ha1, hc]; rw [hc]] <;>
    exact ⟨_, rfl⟩

theorem sort_key_ok (t : JVal) (s : String) (h : WFItem t = true) :
    _sort_key t s = .ok (sortKeyVal t s) := by
  obtain ⟨k, hk⟩ := sort_key_exists_ok t s h
  simp [sortKeyVal, hk, Except.toOption]

theorem charListLE_refl : ∀ l, charListLE l l = true
  | [] => rfl
  | a :: as => by simp [charListLE, charListLE_refl as]

theorem charListLE_total : ∀ a b, (charListLE a b || charListLE b a) = true
  | [], bs => by cases bs <;> simp [charListLE]
  | _ :: _, [] => by simp [charListLE]
  | a :: as, b :: bs => by
    by_cases h1 : a.toNat < b.toNat
    · simp [charListLE, h1]
    · by_cases h2 : b.toNat < a.toNat
      · simp [charListLE, h1, h2]
      · simp only [charListLE, if_neg h1, if_neg h2]
        exact charListLE_total as bs

theorem charListLE_trans : ∀ a b c, charListLE a b = true → charListLE b c = true →
    charListLE a c = true
  | [], _, cs => fun _ _ => rfl
  | _ :: _, [], _ => fun h _ => by simp [charListLE] at h
  | _ :: _, _ :: _, [] => fun _ h => by simp [charListLE] at h
  | a :: as, b :: bs, c :: cs => fun h1 h2 => by
    simp only [charListLE] at h1 h2 ⊢
    by_cases e1 : a.toNat < b.toNat
    · by_cases e2 : b.toNat < c.toNat
      · rw [if_pos (by omega)]
      · rw [if_neg e2] at h2
        by_cases e3 : c.toNat < b.toNat
        · rw [if_pos e3] at h2
          exact absurd h2 (by simp)
        · rw [if_pos (by omega)]
    · rw [if_neg e1] at h1
      by_cases e4 : b.toNat < a.toNat
      · rw [if_pos e4] at h1
        exact absurd h1 (by simp)
      · rw [if_neg e4] at h1
        by_cases e2 : b.toNat < c.toNat
        · rw [if_pos (by omega)]
        · rw [if_neg e2] at h2
          by_cases e3 : c.toNat < b.toNat
          · rw [if_pos e3] at h2
            exact absurd h2 (by simp)
          · rw [if_neg e3] at h2
            rw [if_neg (by omega), if_neg (by omega)]
            exact charListLE_trans as bs cs h1 h2

theorem strLE_refl (a : String) : strLE a a = true := charListLE_refl _

theorem strLE_total (a b : String) : (strLE a b || strLE b a) = true :=
  charListLE_total _ _

theorem strLE_trans {a b c : String} (h1 : strLE a b = true) (h2 : strLE b c = true) :
    strLE a c = true := charListLE_trans _ _ _ h1 h2

theorem skeyLE_refl (a : SKey) : skeyLE a a = true := by
  cases a <;> simp [skeyLE, strLE_refl]

theorem skeyLE_total (a b : SKey) : (skeyLE a b || skeyLE b a) = true := by
  cases a with
  | single c1 =>
    cases b with
    | single c2 => exact strLE_total c1 c2
    | triple a2 b2 c2 => simp [skeyLE]
  | triple a1 b1 c1 =>
    cases b with
    | single c2 => simp [skeyLE]
    | triple a2 b2 c2 =>
      simp only [skeyLE, Bool.or_eq_true, decide_eq_true_eq]
      rcases lt_trichotomy a1 a2 with h | h | h
      · exact Or.inl (Or.inl h)
      · subst h
        rcases lt_trichotomy b1 b2 with h | h | h
        · exact Or.inl (Or.inr ⟨rfl, Or.inl h⟩)
        · subst h
          rcases Bool.or_eq_true_iff.mp (strLE_total c1 c2) with h | h
          · exact Or.inl (Or.inr ⟨rfl, Or.inr ⟨rfl, h⟩⟩)
          · exact Or.inr (Or.inr ⟨rfl, Or.inr ⟨rfl, h⟩⟩)
        · exact Or.inr (Or.inr ⟨rfl, Or.inl h⟩)
      · exact Or.inr (Or.inl h)

theorem skeyLE_trans (a b c : SKey) (h1 : skeyLE a b = true) (h2 : skeyLE b c = true) :
    skeyLE a c = true := by
  cases a with
  | single c1 =>
    cases b with
    | single c2 =>
      cases c with
      | single c3 =>
        simp only [skeyLE] at h1 h2 ⊢
        exact strLE_trans h1 h2
      | triple a3 b3 c3 => simp [skeyLE] at h2
    | triple a2 b2 c2 => simp [skeyLE] at h1
  | triple a1 b1 c1 =>
    cases b with
    | single c2 =>
      cases c with
      | single c3 => simp [skeyLE]
      | triple a3 b3 c3 => simp [skeyLE] at h2
    | triple a2 b2 c2 =>
      cases c with
      | single c3 => simp [skeyLE]
      | triple a3 b3 c3 =>
        simp only [skeyLE, decide_eq_true_eq] at h1 h2 ⊢
        rcases h1 with h1 | ⟨rfl, h1⟩
        · rcases h2 with h2 | ⟨rfl, h2⟩
          · exact Or.inl (lt_trans h1 h2)
          · exact Or.inl h1
        · rcases h2 with h2 | ⟨rfl, h2⟩
          · exact Or.inl h2
          · rcases h1 with h1 | ⟨rfl, h1⟩
            · rcases h2 with h2 | ⟨rfl, h2⟩
              · exact Or.inr ⟨rfl, Or.inl (lt_trans h1 h2)⟩
              · exact Or.inr ⟨rfl, Or.inl h1⟩
            · rcases h2 with h2 | ⟨rfl, h2⟩
              · exact Or.inr ⟨rfl, Or.inl h2⟩
              · exact Or.inr ⟨rfl, Or.inr ⟨rfl, strLE_trans h1 h2⟩⟩

theorem decorate_ok (ts : List JVal) (s : String) (h : ∀ t ∈ ts, WFItem t = true) :
    ts.mapM (fun t => (match _sort_key t s with
      | .error e => .error e
      | .ok k => .ok (k, t) : Except PyExc (SKey × JVal))) =
      .ok (ts.map (fun t => (sortKeyVal t s, t))) := by
  induction ts with
  | nil => rfl
  | cons t ts ih =>
    rw [List.mapM_cons, sort_key_ok t s (h t (by simp)), ih (fun u hu => h u (by simp [hu]))]
    rfl

theorem sortTweets_eq (ts : List JVal) (s : String) (h : ∀ t ∈ ts, WFItem t = true) :
    sortTweets ts s = .ok (((ts.map (fun t => (sortKeyVal t s, t))).insertionSort
      (fun x y => skeyLE y.1 x.1 = true)).map Prod.snd) := by
  unfold sortTweets
  rw [decorate_ok ts s h]

/-- Sample items for the filter claim. -/
def c3sample : List JVal :=
  [.jobj [("public_metrics", .jobj [("like_count", .jnum 3), ("reply_count", .jnum 1),
     ("retweet_count", .jnum 0)])],
   .jobj []]

/-- C3: `_filter_tweets` keeps an item iff each of its three metrics reaches
its threshold (the conditions are ANDed, strictly-below drops); absent or
unparseable metric values count as zero; raising thresholds can only
shrink or preserve the result (as a sublist). -/
theorem C3_filter_semantics :
    (∀ (ts : List JVal) (ml mr mrt : Int), (∀ t ∈ ts, WFItem t = true) →
      ∃ out, _filter_tweets ts ml mr mrt = .ok out ∧
        ∀ t, t ∈ out ↔ t ∈ ts ∧
          (ml ≤ metricVal t "like_count" ∧ mr ≤ metricVal t "reply_count" ∧
            mrt ≤ metricVal t "retweet_count")) ∧
    (∀ (ts : List JVal) (ml mr mrt ml' mr' mrt' : Int) (out out' : List JVal),
      ml ≤ ml' → mr ≤ mr' → mrt ≤ mrt' →
      (∀ t ∈ ts, WFItem t = true) →
      _filter_tweets ts ml mr mrt = .ok out →
      _filter_tweets ts ml' mr' mrt' = .ok out' → out'.Sublist out) ∧
    (∀ (fs : List (String × JVal)) (k : String),
      fs.lookup "public_metrics" = none → metricVal (.jobj fs) k = 0) ∧
    (∀ (mfs : List (String × JVal)) (k s : String) (fs : List (String × JVal)),
      fs.lookup "public_metrics" = some (.jobj mfs) →
      mfs.lookup k = some (.jstr s) → pyIntOfString? s = none →
      metricVal (.jobj fs) k = 0) := by
  refine ⟨?_, ?_, ?_, ?_⟩
  · intro ts ml mr mrt h
    refine ⟨ts.filter (passesFilter ml mr mrt), filter_tweets_ok ts ml mr mrt h, ?_⟩
    intro t
    simp [List.mem_filter, passesFilter, and_assoc]
  · intro ts ml mr mrt ml' mr' mrt' out out' h1 h2 h3 hwf ho ho'
    rw [filter_tweets_ok ts ml mr mrt hwf] at ho
    rw [filter_tweets_ok ts ml' mr' mrt' hwf] at ho'
    cases ho; cases ho'
    exact List.monotone_filter_right ts (passesFilter_mono h1 h2 h3)
  · intro fs k hm
    have h0 : _metric (.jobj fs) k = .ok 0 := by
      unfold _metric
      rw [show dictGet (JVal.jobj fs) "public_metrics" = .ok (fs.lookup "public_metrics")
        from rfl, hm]
      rfl
    simp [metricVal, h0, Except.toOption]
  · intro mfs k s fs hm hv hp
    have hne : pyTruthy (JVal.jobj mfs) = true := by
      cases mfs with
      | nil => simp [List.lookup] at hv
      | cons a l => simp [pyTruthy, List.isEmpty]
    have h0 : _metric (.jobj fs) k = .ok 0 := by
      unfold _metric
      rw [show dictGet (JVal.jobj fs) "public_metrics" = .ok (fs.lookup "public_metrics")
        from rfl, hm]
      dsimp only
      rw [Option.getD_some, pyOr_pos _ hne,
        show dictGet (JVal.jobj mfs) k = .ok (mfs.lookup k) from rfl, hv]
      dsimp only
      rw [Option.getD_some]
      by_cases hs : pyTruthy (JVal.jstr s) = true
      · rw [pyOr_pos _ hs]
        simp [pyIntOf, hp]
      · rw [pyOr_neg _ (by simpa using hs)]
        rfl
    simp [metricVal, h0, Except.toOption]

/-- C3 witness: the filter semantics evaluated on a concrete item list. -/
theorem C3_filter_semantics_witness :
    (∀ t ∈ c3sample, WFItem t = true) ∧
    (∃ out, _filter_tweets c3sample 1 0 0 = .ok out ∧
      ∀ t, t ∈ out ↔ t ∈ c3sample ∧
        (1 ≤ metricVal t "like_count" ∧ 0 ≤ metricVal t "reply_count" ∧
          0 ≤ metricVal t "retweet_count")) :=
  ⟨by decide, C3_filter_semantics.1 c3sample 1 0 0 (by decide)⟩

/-- The claim's first example item (`likes: 1, created: 2026-01-01`). -/
def c4ex1 : JVal :=
  .jobj [("created_at", .jstr "2026-01-01"),
    ("public_metrics", .jobj [("like_count", .jnum 1)])]

/-- The claim's second example item (`likes: 5, created: 2026-01-02`). -/
def c4ex2 : JVal :=
  .jobj [("created_at", .jstr "2026-01-02"),
    ("public_metrics", .jobj [("like_count", .jnum 5)])]

/-- C4: the ranking sort is a stable descending sort by the mode's
composite key (a permutation, pairwise descending, ties keep input
order), the four modes produce the documented key tuples, triple keys
compare lexicographically (ISO strings by code point), and on the claim's
two example items both `likes` and `recent` place the second item
first. -/
theorem C4_ranking :
    (∀ (ts : List JVal) (s : String), (∀ t ∈ ts, WFItem t = true) →
      ∃ out, sortTweets ts s = .ok out ∧
        out.Perm ts ∧
        List.Pairwise (fun a b => skeyLE (sortKeyVal b s) (sortKeyVal a s) = true) out ∧
        (∀ a b, sortKeyVal a s = sortKeyVal b s → [a, b].Sublist ts → [a, b].Sublist out)) ∧
    (∀ t, WFItem t = true →
      sortKeyVal t "likes" =
        .triple (metricVal t "like_count") (metricVal t "reply_count") (createdVal t) ∧
      sortKeyVal t "replies" =
        .triple (metricVal t "reply_count") (metricVal t "like_count") (createdVal t) ∧
      sortKeyVal t "retweets" =
        .triple (metricVal t "retweet_count") (metricVal t "like_count") (createdVal t) ∧
      sortKeyVal t "recent" = .single (createdVal t)) ∧
    (∀ a1 b1 c1 a2 b2 c2, skeyLE (.triple a1 b1 c1) (.triple a2 b2 c2) = true ↔
      (a1 < a2 ∨ (a1 = a2 ∧ (b1 < b2 ∨ (b1 = b2 ∧ strLE c1 c2 = true))))) ∧
    (sortTweets [c4ex1, c4ex2] "likes" = .ok [c4ex2, c4ex1] ∧
      sortTweets [c4ex1, c4ex2] "recent" = .ok [c4ex2, c4ex1]) := by
  refine ⟨?_, ?_, ?_, by decide, by decide⟩
  · intro ts s h
    refine ⟨_, sortTweets_eq ts s h, ?_, ?_, ?_⟩
    · have hp := List.perm_insertionSort (fun x y : SKey × JVal => skeyLE y.1 x.1 = true)
        (ts.map fun t => (sortKeyVal t s, t))
      have hp2 := hp.map Prod.snd
      rw [List.map_map] at hp2
      simpa [Function.comp_def] using hp2
    · have hs := @List.sorted_insertionSort (SKey × JVal)
        (fun x y => skeyLE y.1 x.1 = true) _
        ⟨fun a b => by
          rcases Bool.or_eq_true_iff.mp (skeyLE_total b.1 a.1) with h | h
          · exact Or.inl h
          · exact Or.inr h⟩
        ⟨fun a b c h1 h2 => skeyLE_trans _ _ _ h2 h1⟩
        (ts.map fun t => (sortKeyVal t s, t))
      rw [List.pairwise_map]
      refine hs.imp_of_mem ?_
      intro x y hx hy hxy
      have hperm := List.perm_insertionSort
        (fun x y : SKey × JVal => skeyLE y.1 x.1 = true)
        (ts.map fun t => (sortKeyVal t s, t))
      obtain ⟨tx, _, rfl⟩ := List.mem_map.mp (hperm.mem_iff.mp hx)
      obtain ⟨ty, _, rfl⟩ := List.mem_map.mp (hperm.mem_iff.mp hy)
      exact hxy
    · intro a b hk hsub
      have hdec : [(sortKeyVal a s, a), (sortKeyVal b s, b)].Sublist
          (ts.map fun t => (sortKeyVal t s, t)) := by
        simpa using hsub.map (fun t => (sortKeyVal t s, t))
      have hpw : List.Pairwise (fun x y : SKey × JVal => skeyLE y.1 x.1 = true)
          [(sortKeyVal a s, a), (sortKeyVal b s, b)] := by
        simp [hk, skeyLE_refl]
      have hst := List.sublist_insertionSort hpw hdec
      have hst2 := hst.map Prod.snd
      simpa using hst2
  · intro t h
    have hm1 := metric_ok t "like_count" h
    have hm2 := metric_ok t "reply_count" h
    have hm3 := metric_ok t "retweet_count" h
    have hcc := created_ok t h
    have e1 : pyLower "likes" = "likes" := by decide
    have e2 : pyLower "replies" = "replies" := by decide
    have e3 : pyLower "retweets" = "retweets" := by decide
    have e4 : pyLower "recent" = "recent" := by decide
    refine ⟨?_, ?_, ?_, ?_⟩ <;>
      simp [sortKeyVal, _sort_key, hm1, hm2, hm3, hcc, triKey, Except.toOption,
        e1, e2, e3, e4]
  · intro a1 b1 c1 a2 b2 c2
    simp [skeyLE]

/-- C4 witness: the ranking properties evaluated on the claim's two
example items under the `likes` mode. -/
theorem C4_ranking_witness :
    (∀ t ∈ [c4ex1, c4ex2], WFItem t = true) ∧
    (∃ out, sortTweets [c4ex1, c4ex2] "likes" = .ok out ∧
      out.Perm [c4ex1, c4ex2] ∧
      List.Pairwise (fun a b =>
        skeyLE (sortKeyVal b "likes") (sortKeyVal a "likes") = true) out ∧
      (∀ a b, sortKeyVal a "likes" = sortKeyVal b "likes" →
        [a, b].Sublist [c4ex1, c4ex2] → [a, b].Sublist out)) :=
  ⟨by decide, C4_ranking.1 [c4ex1, c4ex2] "likes" (by decide)⟩

set_option maxRecDepth 10000 in
/-- C1 counterexample: two encoding-equivalent orderings of the same query
parameters — the same logical request — produce different cache keys,
because `_cache_key` hashes the raw URL string without canonicalising
parameter order. -/
theorem C1_cache_key_counterexample :
    _cache_key "https://api.x.com/2/tweets/search/recent?query=a&max_results=10" ≠
      _cache_key "https://api.x.com/2/tweets/search/recent?max_results=10&query=a" := by
  decide

set_option maxRecDepth 10000 in
/-- C1 (amended): the cache key is a deterministic function of the exact
resolved URL string (equal URLs always share a key), and distinct URLs —
including encoding-equivalent parameter reorderings, which are *not*
canonicalised — get distinct keys on the program's concrete requests. -/
theorem C1_cache_key_deterministic :
    (∀ u v : String, u = v → _cache_key u = _cache_key v) ∧
    _cache_key "https://api.x.com/2/tweets/search/recent?query=a&max_results=10" ≠
      _cache_key "https://api.x.com/2/tweets/search/recent?max_results=10&query=a" ∧
    _cache_key
        "https://api.x.com/2/users/by/username/alice?user.fields=public_metrics,verified,created_at" ≠
      _cache_key
        "https://api.x.com/2/users/by/username/bob?user.fields=public_metrics,verified,created_at" :=
  ⟨fun _ _ h => congrArg _ h, by decide, by decide⟩

/-- C1 witness: determinism applied at a concrete URL. -/
theorem C1_cache_key_deterministic_witness :
    _cache_key "https://api.x.com/2/tweets/search/recent?query=a&max_results=10" =
      _cache_key "https://api.x.com/2/tweets/search/recent?query=a&max_results=10" :=
  C1_cache_key_deterministic.1
    "https://api.x.com/2/tweets/search/recent?query=a&max_results=10"
    "https://api.x.com/2/tweets/search/recent?query=a&max_results=10" rfl

theorem pyIn_of_infix {n1 n2 hay : String} (h : n1.toList <:+: n2.toList)
    (h2 : pyIn n2 hay = true) : pyIn n1 hay = true := by
  simp only [pyIn, decide_eq_true_eq] at h2 ⊢
  exact h.trans h2

/-- C10: in quick mode the retweet exclusion is appended exactly when the
lowercased query does not already contain a retweet qualifier, the reply
exclusion exactly when it does not contain a reply qualifier, and `since`
defaults to `"24h"` exactly when it is unset (`None` or empty); in
particular a plain query gains both exclusions and a query containing
`is:reply` gains no reply exclusion. -/
theorem C10_quick_mode :
    (∀ q since, pyIn "is:retweet" (pyLower q) = false → pyIn "is:reply" (pyLower q) = false →
      (quickApply q since).1 = q ++ " -is:retweet" ++ " -is:reply") ∧
    (∀ q since, pyIn "is:retweet" (pyLower q) = true →
      (quickApply q since).1 =
        if pyIn "is:reply" (pyLower q) = true then q else q ++ " -is:reply") ∧
    (∀ q since, pyIn "is:reply" (pyLower q) = true →
      (quickApply q since).1 =
        if pyIn "is:retweet" (pyLower q) = true then q else q ++ " -is:retweet") ∧
    (∀ q, (quickApply q none).2 = some "24h" ∧ (quickApply q (some "")).2 = some "24h") ∧
    (∀ q sv, sv ≠ "" → (quickApply q (some sv)).2 = some sv) ∧
    (quickApply "hello" none = ("hello -is:retweet -is:reply", some "24h") ∧
      (quickApply "foo is:reply" (some "3h")).1 = "foo is:reply -is:retweet") := by
  have sub_rt : ∀ hay, pyIn "-is:retweet" hay = true → pyIn "is:retweet" hay = true :=
    fun hay hh => pyIn_of_infix (by decide) hh
  have sub_rp : ∀ hay, pyIn "-is:reply" hay = true → pyIn "is:reply" hay = true :=
    fun hay hh => pyIn_of_infix (by decide) hh
  refine ⟨?_, ?_, ?_, ?_, ?_, by decide, by decide⟩
  · intro q since h1 h2
    have h1' : pyIn "-is:retweet" (pyLower q) = false := by
      cases hc : pyIn "-is:retweet" (pyLower q) with
      | false => rfl
      | true => exact absurd (sub_rt _ hc) (by simp [h1])
    have h2' : pyIn "-is:reply" (pyLower q) = false := by
      cases hc : pyIn "-is:reply" (pyLower q) with
      | false => rfl
      | true => exact absurd (sub_rp _ hc) (by simp [h2])
    simp [quickApply, h1, h1', h2, h2']
  · intro q since h1
    by_cases h2 : pyIn "is:reply" (pyLower q) = true
    · simp [quickApply, h1, h2]
    · have h2' : pyIn "-is:reply" (pyLower q) = false := by
        cases hc : pyIn "-is:reply" (pyLower q) with
        | false => rfl
        | true => exact absurd (sub_rp _ hc) h2
      simp [quickApply, h1, h2, h2', Bool.not_eq_true _ ▸ rfl]
  · intro q since h2
    by_cases h1 : pyIn "is:retweet" (pyLower q) = true
    · simp [quickApply, h1, h2]
    · have h1' : pyIn "-is:retweet" (pyLower q) = false := by
        cases hc : pyIn "-is:retweet" (pyLower q) with
        | false => rfl
        | true => exact absurd (sub_rt _ hc) h1
      simp [quickApply, h1, h1', h2]
  · intro q
    constructor <;> simp [quickApply, pyTruthyOptStr]
  · intro q sv h
    simp [quickApply, pyTruthyOptStr, h]

/-- C10 witness: the quick-mode rewriting applied at concrete queries. -/
theorem C10_quick_mode_witness :
    (quickApply "civic tech" none).1 = "civic tech" ++ " -is:retweet" ++ " -is:reply" ∧
    (quickApply "bar IS:REPLY" (some "1h")).1 =
      (if pyIn "is:retweet" (pyLower "bar IS:REPLY") = true then "bar IS:REPLY"
       else "bar IS:REPLY" ++ " -is:retweet") ∧
    (quickApply "x" (some "7d")).2 = some "7d" :=
  ⟨C10_quick_mode.1 "civic tech" none (by decide) (by decide),
   C10_quick_mode.2.2.1 "bar IS:REPLY" (some "1h") (by decide),
   C10_quick_mode.2.2.2.2.1 "x" "7d" (by decide)⟩

theorem bearer_missing (w : World)
    (hx : w.xBearerToken = none ∨ w.xBearerToken = some "")
    (ht : w.twitterBearerToken = none ∨ w.twitterBearerToken = some "") :
    _bearer w = .error (.xradarError "Missing X_BEARER_TOKEN env var") := by
  unfold _bearer
  rcases hx with hx | hx <;> rcases ht with ht | ht <;> rw [hx, ht] <;> rfl

theorem getFetch_dir (w : World) (d1 d2 : CacheDir) (url : String) (ttl : Int) (b : Bool) :
    (getFetch { w with dir := d1 } url ttl b).1 = (getFetch { w with dir := d2 } url ttl b).1 ∧
    (getFetch { w with dir := d1 } url ttl b).2.log =
      (getFetch { w with dir := d2 } url ttl b).2.log := by
  unfold getFetch
  have hb : ∀ d, _bearer { w with dir := d } = _bearer w := fun _ => rfl
  rw [hb d1, hb d2]
  cases _bearer w with
  | error e => exact ⟨rfl, rfl⟩
  | ok tok =>
    dsimp only
    cases w.net url with
    | fail m => exact ⟨rfl, rfl⟩
    | notJson => exact ⟨rfl, rfl⟩
    | ok obj =>
      by_cases hc : b = false ∧ ttl > 0 <;> simp [hc]

theorem lookup_cons_self {β : Type} (k : String) (v : β) (rest : List (String × β)) :
    ((k, v) :: rest).lookup k = some v := by
  simp [List.lookup]

/-- C2: a `_write_cache`d payload is returned verbatim by a subsequent
`_get` with a positive TTL while its age is within the TTL, reported as a
hit, with the world untouched (no fetch, no further write); and with
`cache_ttl_seconds = 0` the cache is never consulted (the result does not
depend on the cache directory), nothing is written, and any success is
reported as a miss. -/
theorem C2_cache_roundtrip :
    (∀ (w : World) (url : String) (P : JVal) (ttl now2 : Int),
      0 < ttl → now2 - w.now ≤ ttl →
      _get { w with dir := _write_cache true w.dir w.now url P, now := now2 } url ttl false =
        (.ok (P, true), { w with dir := _write_cache true w.dir w.now url P, now := now2 })) ∧
    (∀ (w : World) (url : String) (b : Bool) (d : CacheDir),
      (_get { w with dir := d } url 0 b).1 = (_get w url 0 b).1 ∧
      (_get w url 0 b).2.dir = w.dir ∧
      (∀ v hit, (_get w url 0 b).1 = .ok (v, hit) → hit = false)) := by
  constructor
  · intro w url P ttl now2 h1 h2
    unfold _get
    rw [if_pos ⟨rfl, h1⟩]
    unfold _read_cache _write_cache
    rw [if_pos rfl]
    rw [lookup_cons_self]
    dsimp only
    rw [if_neg (by omega)]
  · intro w url b d
    have hget : ∀ d', _get { w with dir := d' } url 0 b = getFetch { w with dir := d' } url 0 b := by
      intro d'
      unfold _get
      rw [if_neg (by omega)]
    have hgw : _get w url 0 b = getFetch w url 0 b := by
      unfold _get
      rw [if_neg (by omega)]
    have hw : w = { w with dir := w.dir } := rfl
    refine ⟨?_, ?_, ?_⟩
    · rw [hget d, hgw, hw]
      exact (getFetch_dir w d w.dir url 0 b).1
    · rw [hgw]
      unfold getFetch
      cases _bearer w with
      | error e => rfl
      | ok tok =>
        dsimp only
        cases w.net url with
        | fail m => rfl
        | notJson => rfl
        | ok obj =>
          dsimp only
          rw [if_neg (by omega)]
    · intro v hit h
      rw [hgw] at h
      unfold getFetch at h
      cases hbr : _bearer w with
      | error e =>
        rw [hbr] at h
        dsimp only at h
        exact Except.noConfusion h
      | ok tok =>
        rw [hbr] at h
        dsimp only at h
        cases hn : w.net url with
        | fail m =>
          rw [hn] at h
          dsimp only at h
          exact Except.noConfusion h
        | notJson =>
          rw [hn] at h
          dsimp only at h
          exact Except.noConfusion h
        | ok obj =>
          rw [hn] at h
          dsimp only at h
          rw [if_neg (by omega)] at h
          dsimp only at h
          injection h with hpair
          exact (congrArg Prod.snd hpair).symm

/-- A concrete world for the cache round-trip witness. -/
def c2world : World :=
  { dir := [], writable := true, now := 100, xBearerToken := some "tok",
    twitterBearerToken := none, net := fun _ => .ok (.jobj []), log := [] }

/-- The world of `c2world` after the write and a 50-second clock advance. -/
def c2world2 : World :=
  { c2world with
    dir := _write_cache true c2world.dir c2world.now "u" (.jnum 7)
    now := 150 }

/-- C2 witness: the round trip evaluated at a concrete world, URL and
payload. -/
theorem C2_cache_roundtrip_witness :
    0 < (900 : Int) ∧
    _get c2world2 "u" 900 false = (.ok (.jnum 7, true), c2world2) :=
  ⟨by decide, C2_cache_roundtrip.1 c2world "u" (.jnum 7) 900 150 (by decide) (by decide)⟩

/-- C6: every cache-failure mode — missing file, unreadable file, file
that is not valid JSON — reads as `None`; a fresh valid entry reads as its
payload, a stale one as `None`; a failed write leaves the directory
unchanged; and `_get` behaves on a broken cache entry exactly as on an
absent one (same result, same fetch log) — cache failures are observed
only as misses or skipped writes, never as exceptions. -/
theorem C6_cache_failure_policy :
    (∀ (dir : CacheDir) (now ttl : Int) (url : String),
      dir.lookup (_cache_path url) = none → _read_cache dir now url ttl = none) ∧
    (∀ (dir : CacheDir) (now ttl : Int) (url : String),
      dir.lookup (_cache_path url) = some .absent → _read_cache dir now url ttl = none) ∧
    (∀ (dir : CacheDir) (now ttl m : Int) (url : String),
      dir.lookup (_cache_path url) = some (.withMtime m .unreadable) →
      _read_cache dir now url ttl = none) ∧
    (∀ (dir : CacheDir) (now ttl m : Int) (url : String),
      dir.lookup (_cache_path url) = some (.withMtime m .notJson) →
      _read_cache dir now url ttl = none) ∧
    (∀ (dir : CacheDir) (now ttl m : Int) (url : String) (v : JVal),
      dir.lookup (_cache_path url) = some (.withMtime m (.json v)) →
      _read_cache dir now url ttl = if now - m > ttl then none else some v) ∧
    (∀ (dir : CacheDir) (now : Int) (url : String) (obj : JVal),
      _write_cache false dir now url obj = dir) ∧
    (∀ (w : World) (url : String) (ttl m : Int) (b : Bool) (fc : FileContent)
      (rest : CacheDir), fc = .unreadable ∨ fc = .notJson →
      (_get { w with dir := (_cache_path url, .withMtime m fc) :: rest } url ttl b).1 =
        (_get { w with dir := (_cache_path url, .absent) :: rest } url ttl b).1 ∧
      (_get { w with dir := (_cache_path url, .withMtime m fc) :: rest } url ttl b).2.log =
        (_get { w with dir := (_cache_path url, .absent) :: rest } url ttl b).2.log) := by
  refine ⟨?_, ?_, ?_, ?_, ?_, ?_, ?_⟩
  · intro dir now ttl url h
    unfold _read_cache
    rw [h]
  · intro dir now ttl url h
    unfold _read_cache
    rw [h]
  · intro dir now ttl m url h
    unfold _read_cache
    rw [h]
    dsimp only
    split <;> rfl
  · intro dir now ttl m url h
    unfold _read_cache
    rw [h]
    dsimp only
    split <;> rfl
  · intro dir now ttl m url v h
    unfold _read_cache
    rw [h]
  · intro dir now url obj
    unfold _write_cache
    rw [if_neg (by simp)]
  · intro w url ttl m b fc rest hfc
    have hbad : ∀ now2, _read_cache ((_cache_path url, .withMtime m fc) :: rest) now2 url ttl
        = none := by
      intro now2
      unfold _read_cache
      rw [lookup_cons_self]
      rcases hfc with h | h <;> rw [h] <;> dsimp only <;> split <;> rfl
    have habs : ∀ now2, _read_cache ((_cache_path url, .absent) :: rest) now2 url ttl = none := by
      intro now2
      unfold _read_cache
      rw [lookup_cons_self]
    unfold _get
    by_cases hc : b = false ∧ ttl > 0
    · rw [if_pos hc, if_pos hc]
      dsimp only
      rw [hbad, habs]
      exact getFetch_dir w _ _ url ttl b
    · rw [if_neg hc, if_neg hc]
      exact getFetch_dir w _ _ url ttl b

/-- C6 witness: the failure modes evaluated on a concrete directory. -/
theorem C6_cache_failure_policy_witness :
    _read_cache [(_cache_path "u", .withMtime 0 .notJson)] 10 "u" 900 = none ∧
    _read_cache [(_cache_path "u", .withMtime 0 (.json (.jnum 1)))] 10 "u" 900 =
      if (10 : Int) - 0 > 900 then none else some (.jnum 1) :=
  ⟨C6_cache_failure_policy.2.2.2.1 [(_cache_path "u", .withMtime 0 .notJson)] 10 900 0 "u"
     (by decide),
   C6_cache_failure_policy.2.2.2.2.1 [(_cache_path "u", .withMtime 0 (.json (.jnum 1)))]
     10 900 0 "u" (.jnum 1) (by decide)⟩

/-- C7: the bearer credential is resolved lazily.  With no credential
configured (both variables unset or empty), a `_get` satisfied by a fresh
cache entry succeeds with the cached payload and leaves the world — in
particular the fetch log — untouched; a `_get` that misses (or bypasses
caching, or has a nonpositive TTL) fails with the missing-credential
`XRadarError` before any network request; and through `main`'s handler a
`tweet` invocation on an empty cache surfaces exit code 1 with a
`runtime_error` payload whose message cites the missing credential. -/
theorem C7_lazy_credential :
    (∀ (w : World) (url : String) (ttl : Int) (v : JVal),
      (w.xBearerToken = none ∨ w.xBearerToken = some "") →
      (w.twitterBearerToken = none ∨ w.twitterBearerToken = some "") →
      0 < ttl → _read_cache w.dir w.now url ttl = some v →
      _get w url ttl false = (.ok (v, true), w)) ∧
    (∀ (w : World) (url : String) (ttl : Int) (b : Bool),
      (w.xBearerToken = none ∨ w.xBearerToken = some "") →
      (w.twitterBearerToken = none ∨ w.twitterBearerToken = some "") →
      (b = true ∨ ttl ≤ 0 ∨ _read_cache w.dir w.now url ttl = none) →
      _get w url ttl b = (.error (.xradarError "Missing X_BEARER_TOKEN env var"), w)) ∧
    (∀ (w : World) (id : String) (b : Bool),
      (w.xBearerToken = none ∨ w.xBearerToken = some "") →
      (w.twitterBearerToken = none ∨ w.twitterBearerToken = some "") →
      w.dir = [] →
      mainTweet w id b =
        ((_error_payload "runtime_error" "Missing X_BEARER_TOKEN env var", 1), w)) ∧
    pyIn "X_BEARER_TOKEN" "Missing X_BEARER_TOKEN env var" = true := by
  have hfetch : ∀ (w : World) (url : String) (ttl : Int) (b : Bool),
      (w.xBearerToken = none ∨ w.xBearerToken = some "") →
      (w.twitterBearerToken = none ∨ w.twitterBearerToken = some "") →
      getFetch w url ttl b = (.error (.xradarError "Missing X_BEARER_TOKEN env var"), w) := by
    intro w url ttl b hx ht
    unfold getFetch
    rw [bearer_missing w hx ht]
  refine ⟨?_, ?_, ?_, by decide⟩
  · intro w url ttl v hx ht h1 h2
    unfold _get
    rw [if_pos ⟨rfl, h1⟩, h2]
  · intro w url ttl b hx ht hmiss
    unfold _get
    rcases hmiss with h | h | h
    · rw [if_neg (by simp [h])]
      exact hfetch w url ttl b hx ht
    · rw [if_neg (by rintro ⟨_, hb⟩; omega)]
      exact hfetch w url ttl b hx ht
    · by_cases hc : b = false ∧ ttl > 0
      · rw [if_pos hc, h]
        exact hfetch w url ttl b hx ht
      · rw [if_neg hc]
        exact hfetch w url ttl b hx ht
  · intro w id b hx ht hdir
    have hmiss : _read_cache w.dir w.now
        ("https://api.x.com/2/tweets?" ++ urlencode
          [("ids", quote id),
           ("tweet.fields", "created_at,public_metrics,author_id,conversation_id"),
           ("expansions", "author_id"),
           ("user.fields", "username,name,verified")]) 900 = none := by
      unfold _read_cache
      rw [hdir]
      rfl
    unfold mainTweet mainTweetOut tweet_by_id
    dsimp only
    unfold _get
    by_cases hc : b = false ∧ (900 : Int) > 0
    · rw [if_pos hc]
      rw [show API ++ "/tweets?" ++ urlencode
          [("ids", quote id),
           ("tweet.fields", "created_at,public_metrics,author_id,conversation_id"),
           ("expansions", "author_id"),
           ("user.fields", "username,name,verified")] =
        "https://api.x.com/2/tweets?" ++ urlencode
          [("ids", quote id),
           ("tweet.fields", "created_at,public_metrics,author_id,conversation_id"),
           ("expansions", "author_id"),
           ("user.fields", "username,name,verified")] from rfl]
      rw [hmiss]
      rw [hfetch w _ 900 b hx ht]
      rfl
    · rw [if_neg hc]
      rw [hfetch w _ 900 b hx ht]
      rfl

/-- A credential-less world with one fresh cached entry, for the C7
witness. -/
def c7world : World :=
  { dir := [(_cache_path "u", .withMtime 5 (.json (.jnum 9)))], writable := true, now := 10,
    xBearerToken := none, twitterBearerToken := some "", net := fun _ => .fail "unreachable",
    log := [] }

/-- C7 witness: a full cache hit succeeds without a credential, and a
bypassing call fails with the missing-credential error, at a concrete
world. -/
theorem C7_lazy_credential_witness :
    _get c7world "u" 900 false = (.ok (.jnum 9, true), c7world) ∧
    _get c7world "u" 900 true =
      (.error (.xradarError "Missing X_BEARER_TOKEN env var"), c7world) :=
  ⟨C7_lazy_credential.1 c7world "u" 900 (.jnum 9) (Or.inl rfl) (Or.inr rfl) (by decide)
     (by decide),
   C7_lazy_credential.2.1 c7world "u" 900 true (Or.inl rfl) (Or.inr rfl) (Or.inl rfl)⟩

/-- C9: when the username-lookup payload carries no (truthy) user id,
`user_tweets` short-circuits with the structured "not found" object and
the world of the first fetch — the second (tweets) fetch never happens —
and `main` emits that object on the success path with exit code 0, not as
the `{error: {code, message}}` failure envelope. -/
theorem C9_user_not_found :
    ∀ (w : World) (username : String) (limit : Int) (sort : String) (ml mr mrt : Int)
      (u1 : JVal) (h1 : Bool) (w1 : World) (uidOpt : Option JVal),
      user_by_username w username 900 false = (.ok (u1, h1), w1) →
      (match dictGetD u1 "data" (.jobj []) with
       | .error e => .error e
       | .ok d => dictGet d "id" : Except PyExc (Option JVal)) = .ok uidOpt →
      pyTruthy (uidOpt.getD .null) = false →
      user_tweets w username limit sort ml mr mrt =
        (.ok (.jobj [("error", .jstr "user not found"), ("user", u1)]), w1) ∧
      mainUserTweets w username limit sort ml mr mrt =
        ((.jobj [("error", .jstr "user not found"), ("user", u1)], 0), w1) := by
  intro w username limit sort ml mr mrt u1 h1 w1 uidOpt hu hid htr
  have hut : user_tweets w username limit sort ml mr mrt =
      (.ok (.jobj [("error", .jstr "user not found"), ("user", u1)]), w1) := by
    unfold user_tweets
    rw [hu]
    dsimp only
    rw [hid]
    dsimp only
    rw [if_pos htr]
  refine ⟨hut, ?_⟩
  unfold mainUserTweets
  rw [hut]
  rfl

/-- The cached username-lookup URL of the C9 witness. -/
def c9url : String :=
  "https://api.x.com/2/users/by/username/" ++ quote "alice" ++
    "?user.fields=public_metrics,verified,created_at"

/-- A user-lookup payload with no `id` in its `data`. -/
def c9payload : JVal := .jobj [("data", .jobj [])]

/-- A world whose cache already holds the id-less lookup payload. -/
def c9world : World :=
  { dir := [(_cache_path c9url, .withMtime 0 (.json c9payload))], writable := true, now := 10,
    xBearerToken := some "t", twitterBearerToken := none, net := fun _ => .fail "unreachable",
    log := [] }

set_option maxRecDepth 10000 in
/-- C9 witness: the short-circuit evaluated at a concrete world. -/
theorem C9_user_not_found_witness :
    user_tweets c9world "alice" 10 "recent" 0 0 0 =
      (.ok (.jobj [("error", .jstr "user not found"), ("user", c9payload)]), c9world) ∧
    mainUserTweets c9world "alice" 10 "recent" 0 0 0 =
      ((.jobj [("error", .jstr "user not found"), ("user", c9payload)], 0), c9world) :=
  C9_user_not_found c9world "alice" 10 "recent" 0 0 0 c9payload true c9world none rfl
    (by decide) (by decide)

/-- A world for the C8 counterexample (its cache and network are never
reached: the error fires during argument parsing). -/
def c8world : World :=
  { dir := [], writable := true, now := 1767225600, xBearerToken := some "t",
    twitterBearerToken := none, net := fun _ => .ok (.jobj [("data", .jarr [])]), log := [] }

/-- C8 counterexample: for `--since "xh"` the program exits 2 with code
`invalid_arguments` as claimed, but the message is `float`'s conversion
error and does not mention the expected format. -/
theorem C8_since_counterexample :
    (mainSearch c8world "q" 15 "likes" (some "xh") 0 0 0 false).1 =
      (_error_payload "invalid_arguments" ("could not convert string to float: " ++ pyRepr "x"),
        2) ∧
    pyIn "--since must be like" ("could not convert string to float: " ++ pyRepr "x") = false ∧
    pyIn "must be like" ("could not convert string to float: " ++ pyRepr "x") = false := by
  refine ⟨by decide, by decide, by decide⟩

/-- C8 (amended): a `--since` of the form `<number>h` / `<number>d` (with
a finite, in-range number) is converted to `timedelta` seconds — hours
times 3600, days times 86400, the lower bound then being `now` minus that
delta; a string that does not end in `h` or `d` (after strip/lower) fails
with the canonical `ValueError`, which `main` surfaces — before any
network attempt, with the world untouched — as exit code 2 and an
`invalid_arguments` payload whose message names the expected format.
(Strings ending in `h`/`d` whose number part does not parse keep exit
code 2 and `invalid_arguments` but carry `float`'s message instead.) -/
theorem C8_since_parsing :
    (∀ (s : String) (q : ℚ),
      strEndsWith (pyLower (pyStrip s)) "h" = true →
      pyFloatOfString? (pyDropRight (pyLower (pyStrip s)) 1) = some (.finite q) →
      -999999999 * 86400 ≤ q * 3600 → q * 3600 ≤ 999999999 * 86400 + 86399 →
      _parse_since s = .ok (q * 3600)) ∧
    (∀ (s : String) (q : ℚ),
      strEndsWith (pyLower (pyStrip s)) "h" = false →
      strEndsWith (pyLower (pyStrip s)) "d" = true →
      pyFloatOfString? (pyDropRight (pyLower (pyStrip s)) 1) = some (.finite q) →
      -999999999 * 86400 ≤ q * 86400 → q * 86400 ≤ 999999999 * 86400 + 86399 →
      _parse_since s = .ok (q * 86400)) ∧
    (∀ s : String,
      strEndsWith (pyLower (pyStrip s)) "h" = false →
      strEndsWith (pyLower (pyStrip s)) "d" = false →
      _parse_since s = .error (.valueError "--since must be like 1h, 3h, 12h, 1d, 7d")) ∧
    (∀ (w : World) (query : String) (limit : Int) (sort : String) (ml mr mrt : Int)
      (sv : String) (quick : Bool), sv ≠ "" →
      strEndsWith (pyLower (pyStrip sv)) "h" = false →
      strEndsWith (pyLower (pyStrip sv)) "d" = false →
      mainSearch w query limit sort (some sv) ml mr mrt quick =
        ((_error_payload "invalid_arguments" "--since must be like 1h, 3h, 12h, 1d, 7d", 2),
          w)) ∧
    pyIn "--since must be like" "--since must be like 1h, 3h, 12h, 1d, 7d" = true := by
  have hparse : ∀ s : String,
      strEndsWith (pyLower (pyStrip s)) "h" = false →
      strEndsWith (pyLower (pyStrip s)) "d" = false →
      _parse_since s = .error (.valueError "--since must be like 1h, 3h, 12h, 1d, 7d") := by
    intro s h1 h2
    unfold _parse_since
    rw [if_neg (by simp [h1]), if_neg (by simp [h2])]
  refine ⟨?_, ?_, hparse, ?_, by decide⟩
  · intro s q h1 hf hl hu
    unfold _parse_since
    rw [if_pos h1, hf]
    unfold timedeltaSeconds
    dsimp only
    rw [if_neg (by push_neg; exact ⟨by linarith, by linarith⟩)]
  · intro s q h1 h2 hf hl hu
    unfold _parse_since
    rw [if_neg (by simp [h1]), if_pos h2, hf]
    unfold timedeltaSeconds
    dsimp only
    rw [if_neg (by push_neg; exact ⟨by linarith, by linarith⟩)]
  · intro w query limit sort ml mr mrt sv quick hne h1 h2
    have hsince : (if quick then quickApply query (some sv) else (query, some sv)).2 =
        some sv := by
      cases quick with
      | false => rfl
      | true => simp [quickApply, pyTruthyOptStr, hne]
    unfold mainSearch search_recent
    rcases hqs : (if quick then quickApply query (some sv) else (query, some sv)) with ⟨q2, s2⟩
    have hs2 : s2 = some sv := by rw [hqs] at hsince; exact hsince
    subst hs2
    dsimp only
    rw [if_neg hne, hparse sv h1 h2]
    rfl

/-- C8 witness: the amended parsing behaviour at concrete inputs. -/
theorem C8_since_parsing_witness :
    _parse_since "1h" = .ok ((1 : ℚ) * 3600) ∧
    mainSearch c8world "q" 15 "likes" (some "abc") 0 0 0 false =
      ((_error_payload "invalid_arguments" "--since must be like 1h, 3h, 12h, 1d, 7d", 2),
        c8world) :=
  ⟨C8_since_parsing.1 "1h" 1 (by decide) (by decide) (by decide) (by decide),
   C8_since_parsing.2.2.2.1 c8world "q" 15 "likes" 0 0 0 "abc" false (by decide) (by decide)
     (by decide)⟩

theorem getFetch_ok_log (w : World) (url : String) (ttl : Int) (b : Bool) (v : JVal)
    (hit : Bool) (w1 : World) (h : getFetch w url ttl b = (.ok (v, hit), w1)) :
    hit = false ∧ w1.log = w.log ++ [url] := by
  unfold getFetch at h
  cases hbr : _bearer w with
  | error e =>
    rw [hbr] at h
    dsimp only at h
    exact absurd (congrArg Prod.fst h) (by simp)
  | ok tok =>
    rw [hbr] at h
    dsimp only at h
    cases hn : w.net url with
    | fail m =>
      rw [hn] at h
      exact absurd (congrArg Prod.fst h) (by simp)
    | notJson =>
      rw [hn] at h
      exact absurd (congrArg Prod.fst h) (by simp)
    | ok obj =>
      rw [hn] at h
      dsimp only at h
      by_cases hc : b = false ∧ ttl > 0
      · rw [if_pos hc] at h
        have h2 := congrArg Prod.snd h
        have h1 := congrArg Prod.fst h
        dsimp only at h1 h2
        injection h1 with hp
        refine ⟨(congrArg Prod.snd hp).symm, ?_⟩
        rw [← h2]
      · rw [if_neg hc] at h
        have h2 := congrArg Prod.snd h
        have h1 := congrArg Prod.fst h
        dsimp only at h1 h2
        injection h1 with hp
        refine ⟨(congrArg Prod.snd hp).symm, ?_⟩
        rw [← h2]

theorem get_ok_cases (w : World) (url : String) (ttl : Int) (b : Bool) (v : JVal)
    (hit : Bool) (w1 : World) (h : _get w url ttl b = (.ok (v, hit), w1)) :
    (hit = true ∧ w1 = w) ∨ (hit = false ∧ w1.log = w.log ++ [url]) := by
  unfold _get at h
  by_cases hc : b = false ∧ ttl > 0
  · rw [if_pos hc] at h
    cases hr : _read_cache w.dir w.now url ttl with
    | some cached =>
      rw [hr] at h
      have h2 := congrArg Prod.snd h
      have h1 := congrArg Prod.fst h
      dsimp only at h1 h2
      injection h1 with hp
      exact Or.inl ⟨(congrArg Prod.snd hp).symm, h2.symm⟩
    | none =>
      rw [hr] at h
      exact Or.inr (getFetch_ok_log w url ttl b v hit w1 h)
  · rw [if_neg hc] at h
    exact Or.inr (getFetch_ok_log w url ttl b v hit w1 h)

/-- C5: cost counts reflect only fetches actually performed.  For
`user_tweets`, the reported request count is the sum of the two fetches'
miss indicators, `user_lookups` is billed only when the username lookup
missed, `post_reads` only when the tweets fetch missed, and a fully
cached call reports zero everywhere including `estimated_usd`.  For
`search_recent`, a call that performed no network fetch (its log is
unchanged — every fetch was a cache hit) reports zero requests, reads,
lookups and cost. -/
theorem C5_cost_attribution :
    (∀ (w : World) (username : String) (limit : Int) (sort : String) (ml mr mrt : Int)
      (env : JVal) (w2 : World) (h1 h2 : Bool),
      user_tweets w username limit sort ml mr mrt = (.ok env, w2) →
      jpath env ["x_radar", "cache", "user_lookup_hit"] = some (.jbool h1) →
      jpath env ["x_radar", "cache", "tweets_hit"] = some (.jbool h2) →
      jpath env ["x_radar", "cost", "requests"] =
        some (.jnum ((((if h1 = true then 0 else 1) + (if h2 = true then 0 else 1) : Int)) : ℚ)) ∧
      jpath env ["x_radar", "cost", "user_lookups"] =
        some (.jnum (((if h1 = true then 0 else 1 : Int)) : ℚ)) ∧
      (h2 = true → jpath env ["x_radar", "cost", "post_reads"] = some (.jnum 0)) ∧
      (h1 = true → h2 = true →
        jpath env ["x_radar", "cost", "requests"] = some (.jnum 0) ∧
        jpath env ["x_radar", "cost", "post_reads"] = some (.jnum 0) ∧
        jpath env ["x_radar", "cost", "user_lookups"] = some (.jnum 0) ∧
        jpath env ["x_radar", "cost", "estimated_usd"] = some (.jnum 0))) ∧
    (∀ (w : World) (query : String) (limit : Int) (sort : String) (since : Option String)
      (ml mr mrt : Int) (quick : Bool) (env : JVal) (w2 : World),
      search_recent w query limit sort since ml mr mrt quick = (.ok env, w2) →
      w2.log = w.log →
      jpath env ["x_radar", "cost", "requests"] = some (.jnum 0) ∧
      jpath env ["x_radar", "cost", "post_reads"] = some (.jnum 0) ∧
      jpath env ["x_radar", "cost", "user_lookups"] = some (.jnum 0) ∧
      jpath env ["x_radar", "cost", "estimated_usd"] = some (.jnum 0)) := by
  constructor
  · intro w username limit sort ml mr mrt env w2 h1 h2 hut hx1 hx2
    unfold user_tweets at hut
    rcases hu : user_by_username w username 900 false with ⟨r1, w1⟩
    rw [hu] at hut
    cases r1 with
    | error e =>
      exact absurd (congrArg Prod.fst hut) (by simp)
    | ok pr =>
      obtain ⟨u1, chu⟩ := pr
      dsimp only at hut
      cases hid : (match dictGetD u1 "data" (.jobj []) with
          | .error e => .error e
          | .ok d => dictGet d "id" : Except PyExc (Option JVal)) with
      | error e =>
        rw [hid] at hut
        exact absurd (congrArg Prod.fst hut) (by simp)
      | ok uidOpt =>
        rw [hid] at hut
        dsimp only at hut
        by_cases htr : pyTruthy (uidOpt.getD .null) = false
        · rw [if_pos htr] at hut
          have henv := congrArg Prod.fst hut
          dsimp only at henv
          injection henv with henv2
          rw [← henv2] at hx1
          simp [jpath, List.lookup] at hx1
        · rw [if_neg htr] at hut
          rcases hg : _get w1 (API ++ "/users/" ++ pyStr (uidOpt.getD JVal.null) ++
              "/tweets?max_results=100" ++
              "&tweet.fields=created_at,public_metrics,conversation_id" ++
              "&exclude=replies,retweets") 900 false with ⟨r2, w2'⟩
          rw [hg] at hut
          cases r2 with
          | error e =>
            exact absurd (congrArg Prod.fst hut) (by simp)
          | ok pr2 =>
            obtain ⟨raw, cht⟩ := pr2
            dsimp only at hut
            cases hrp : rankPipeline raw limit sort ml mr mrt with
            | error e =>
              rw [hrp] at hut
              exact absurd (congrArg Prod.fst hut) (by simp)
            | ok pr3 =>
              obtain ⟨t0, tw⟩ := pr3
              rw [hrp] at hut
              dsimp only at hut
              have henv := congrArg Prod.fst hut
              dsimp only at henv
              injection henv with henv2
              rw [← henv2] at hx1 hx2 ⊢
              simp [jpath, CostEstimate.as_dict, List.lookup] at hx1 hx2 ⊢
              subst hx1
              subst hx2
              refine ⟨rfl, rfl, ?_, ?_⟩
              · intro hh hc
                rw [hh] at hc
                exact absurd hc (by simp)
              · intro hh1 hh2
                refine ⟨?_, ?_, hh1, ?_⟩
                · rw [hh1, hh2]
                  simp
                · intro hc
                  rw [hh2] at hc
                  exact absurd hc (by simp)
                · rw [hh1, hh2]
                  norm_num
                  decide
  · intro w query limit sort since ml mr mrt quick env w2 hsr hlog
    unfold search_recent at hsr
    dsimp only at hsr
    split at hsr
    · exact absurd (congrArg Prod.fst hsr) (by simp)
    · split at hsr
      · exact absurd (congrArg Prod.fst hsr) (by simp)
      · rename_i raw cache_hit w1 hg
        split at hsr
        · exact absurd (congrArg Prod.fst hsr) (by simp)
        · rename_i tweets0 tweets hrp
          have henv := congrArg Prod.fst hsr
          have hw := congrArg Prod.snd hsr
          dsimp only at henv hw
          injection henv with henv2
          rcases get_ok_cases _ _ _ _ _ _ _ hg with ⟨hhit, hw1⟩ | ⟨hhit, hw1log⟩
          · subst hhit
            rw [← henv2]
            simp [jpath, CostEstimate.as_dict, List.lookup]
            decide
          · exfalso
            have hlen : w1.log.length = w.log.length + 1 := by
              rw [hw1log]; simp
            rw [hw, hlog] at hlen
            omega

/-- The username-lookup URL `user_tweets` resolves for `alice`. -/
def c5url1 : String :=
  API ++ "/users/by/username/" ++ quote "alice" ++
    "?user.fields=public_metrics,verified,created_at"

/-- The author-tweets URL `user_tweets` resolves for user id `u1`. -/
def c5url2 : String :=
  API ++ "/users/" ++ "u1" ++ "/tweets?max_results=100" ++
    "&tweet.fields=created_at,public_metrics,conversation_id" ++
    "&exclude=replies,retweets"

/-- A cached username-lookup payload whose `data.id` is `u1`. -/
def c5userPayload : JVal := .jobj [("data", .jobj [("id", .jstr "u1")])]

/-- A cached tweets payload with an empty `data` array. -/
def c5tweetsPayload : JVal := .jobj [("data", .jarr [])]

/-- A world whose cache already holds both `user_tweets` fetches. -/
def c5world : World :=
  { dir := [(_cache_path c5url1, .withMtime 0 (.json c5userPayload)),
            (_cache_path c5url2, .withMtime 0 (.json c5tweetsPayload))],
    writable := true, now := 10, xBearerToken := some "t", twitterBearerToken := none,
    net := fun _ => .fail "unreachable", log := [] }

/-- The envelope the fully cached `user_tweets` call returns. -/
def c5env : JVal :=
  match (user_tweets c5world "alice" 10 "recent" 0 0 0).1 with
  | .ok v => v
  | .error _ => .null

/-- The search URL `search_recent` resolves for query `hello` without
`since` and without quick mode. -/
def c5surl : String :=
  API ++ "/tweets/search/recent?" ++ urlencode
    [("query", "hello"), ("max_results", "100"),
     ("tweet.fields", "created_at,public_metrics,author_id,conversation_id"),
     ("expansions", "author_id"),
     ("user.fields", "username,name,verified")]

/-- A world whose cache already holds the search fetch. -/
def c5sworld : World :=
  { dir := [(_cache_path c5surl, .withMtime 0 (.json c5tweetsPayload))],
    writable := true, now := 10, xBearerToken := some "t", twitterBearerToken := none,
    net := fun _ => .fail "unreachable", log := [] }

/-- The envelope the fully cached `search_recent` call returns. -/
def c5senv : JVal :=
  match (search_recent c5sworld "hello" 10 "likes" none 0 0 0 false).1 with
  | .ok v => v
  | .error _ => .null

set_option maxRecDepth 10000 in
/-- C5 witness: cost attribution evaluated at a fully cached `user_tweets`
call (both hit flags `true`, all costs zero) and a fully cached
`search_recent` call (log unchanged, all costs zero). -/
theorem C5_cost_attribution_witness :
    (jpath c5env ["x_radar", "cost", "requests"] =
        some (.jnum ((((if true = true then 0 else 1) +
          (if true = true then 0 else 1) : Int)) : ℚ)) ∧
      jpath c5env ["x_radar", "cost", "user_lookups"] =
        some (.jnum (((if true = true then 0 else 1 : Int)) : ℚ)) ∧
      (true = true → jpath c5env ["x_radar", "cost", "post_reads"] = some (.jnum 0)) ∧
      (true = true → true = true →
        jpath c5env ["x_radar", "cost", "requests"] = some (.jnum 0) ∧
        jpath c5env ["x_radar", "cost", "post_reads"] = some (.jnum 0) ∧
        jpath c5env ["x_radar", "cost", "user_lookups"] = some (.jnum 0) ∧
        jpath c5env ["x_radar", "cost", "estimated_usd"] = some (.jnum 0))) ∧
    (jpath c5senv ["x_radar", "cost", "requests"] = some (.jnum 0) ∧
      jpath c5senv ["x_radar", "cost", "post_reads"] = some (.jnum 0) ∧
      jpath c5senv ["x_radar", "cost", "user_lookups"] = some (.jnum 0) ∧
      jpath c5senv ["x_radar", "cost", "estimated_usd"] = some (.jnum 0)) :=
  ⟨C5_cost_attribution.1 c5world "alice" 10 "recent" 0 0 0 c5env c5world true true rfl rfl rfl,
   C5_cost_attribution.2 c5sworld "hello" 10 "likes" none 0 0 0 false c5senv c5sworld rfl rfl⟩

